import Mathlib

set_option allowUnsafeReducibility true

attribute [semireducible] Rat.add Rat.mul Rat.inv Rat.div Rat.sub Rat.neg Rat.normalize mkRat
  Rat.blt

/-
  Verification of the SIOCOM invoice-extraction pipelines (air-e and ESSA families).

  The two Python modules under verification pull structured fields out of
  invoice text with a fixed catalog of regular expressions.  This file gives a
  shallow embedding of that code:

  * a small executable backtracking regular-expression engine with the
    semantics of Python's re module (leftmost match, ordered alternation,
    greedy and lazy repetition, capture groups, IGNORECASE and DOTALL);
  * faithful translations of every extraction routine of
    air-e/data_extractor.py and ESSA/data_extractor.py, with Python dicts
    modelled as insertion-ordered association lists, Python floats modelled as
    exact rationals (every numeric value handled by the code is an exactly
    representable decimal), and Python exceptions (ValueError from float/int
    conversions) modelled with the Except monad: a conversion inside a
    try/except is absorbed exactly where the source absorbs it, every other
    conversion propagates.

  Theorems about the claims follow the definitions.
-/

namespace Siocom

/-- Python character class items: a literal character, a range, or one of the
shorthand classes backslash-d, backslash-s, backslash-w. -/
inductive CIt where
  | ch (c : Char)
  | range (lo hi : Char)
  | digit
  | space
  | word
deriving DecidableEq, Repr

/-- Abstract syntax of the regular expressions appearing in the two
data_extractor modules: literals, classes, any-char (with a DOTALL switch),
concatenation, ordered alternation, counted repetition (greedy or lazy),
capture groups, positive lookahead, and the end anchor. -/
inductive Re where
  | eps
  | lit (c : Char)
  | cls (neg : Bool) (items : List CIt)
  | anych (dotall : Bool)
  | cat (a b : Re)
  | alt (a b : Re)
  | rep (lo : Nat) (hi : Option Nat) (lz : Bool) (a : Re)
  | grp (i : Nat) (a : Re)
  | look (a : Re)
  | eos
deriving DecidableEq, Repr

/-- Python str.isspace for the ASCII whitespace characters recognised by
the backslash-s class. -/
def isPySpace (c : Char) : Bool :=
  c = ' ' || c = '\t' || c = '\n' || c = '\r' || c.toNat = 11 || c.toNat = 12

/-- The backslash-w class (ASCII portion, which covers every text these
patterns are applied to). -/
def isPyWord (c : Char) : Bool :=
  c.isAlphanum || c = '_'

/-- Character comparison, optionally case-insensitive (re.IGNORECASE). -/
def cmatch (ci : Bool) (a b : Char) : Bool :=
  if ci then a.toLower == b.toLower else a == b

/-- Range membership by code point. -/
def inRange (lo hi c : Char) : Bool :=
  lo.toNat ≤ c.toNat && c.toNat ≤ hi.toNat

/-- Whether one class item accepts a character. -/
def citMatch (ci : Bool) (it : CIt) (c : Char) : Bool :=
  match it with
  | .ch d => cmatch ci d c
  | .range lo hi => inRange lo hi c || (ci && (inRange lo hi c.toLower || inRange lo hi c.toUpper))
  | .digit => c.isDigit
  | .space => isPySpace c
  | .word => isPyWord c

/-- Capture store: group index to the captured character list
(last capture wins, as in Python). -/
abbrev Caps := List (Nat × List Char)

/-- Record a capture, replacing any previous capture of the same group. -/
def capPut (caps : Caps) (i : Nat) (v : List Char) : Caps :=
  match caps with
  | [] => [(i, v)]
  | (j, w) :: rest => if j = i then (i, v) :: rest else (j, w) :: capPut rest i v

/-- Read a capture (empty when the group did not participate). -/
def capGet (caps : Caps) (i : Nat) : List Char :=
  match caps with
  | [] => []
  | (j, w) :: rest => if j = i then w else capGet rest i

/-- Result of a successful match attempt: the remaining input and captures. -/
abbrev MRes := List Char × Caps

/-- Decrement an optional repetition bound. -/
def hiDec (h : Option Nat) : Option Nat :=
  h.map (· - 1)

/-- Work items of the backtracking machine: a pattern still to match, the
closing bookkeeping of a capture group (remembering the input at which the
group opened), or a progress check guarding an unbounded repetition. -/
inductive Item where
  | re (r : Re)
  | close (i : Nat) (start : List Char)
  | prog (start : List Char)

/-- One backtracking alternative: pending work items, remaining input, and
the captures recorded so far. -/
abbrev Alt := List Item × List Char × Caps

/-- Outcome of one machine step. -/
inductive VmOut where
  | done (res : MRes)
  | nomatch
  | next (st : List Alt)

/-- One step of the backtracking matcher over an explicit, priority-ordered
stack of alternatives (head first).  The expansion order reproduces
Python's backtracking: alternation pushes its left branch first, greedy
repetition puts the iterating branch before the skipping branch, lazy
repetition the other way round, and an unbounded repetition iterates only
while its body consumes input (the prog check), which agrees with Python on
every pattern of this program since their repetition bodies cannot match
empty.  The first alternative that runs out of work items is the match. -/
def vmStep (ci : Bool) (lookFn : Re → List Char → Bool) : List Alt → VmOut
  | [] => .nomatch
  | (items, s, caps) :: alts =>
      match items with
      | [] => .done (s, caps)
      | item :: rest =>
          match item with
          | .close i start =>
              .next ((rest, s, capPut caps i (start.take (start.length - s.length))) :: alts)
          | .prog start =>
              if s.length < start.length then .next ((rest, s, caps) :: alts) else .next alts
          | .re r =>
              match r with
              | .eps => .next ((rest, s, caps) :: alts)
              | .lit c =>
                  match s with
                  | [] => .next alts
                  | c2 :: s2 =>
                      if cmatch ci c c2 then .next ((rest, s2, caps) :: alts) else .next alts
              | .cls neg its =>
                  match s with
                  | [] => .next alts
                  | c2 :: s2 =>
                      if (its.any fun it => citMatch ci it c2) != neg then
                        .next ((rest, s2, caps) :: alts)
                      else .next alts
              | .anych dotall =>
                  match s with
                  | [] => .next alts
                  | c2 :: s2 =>
                      if dotall || c2 != '\n' then .next ((rest, s2, caps) :: alts)
                      else .next alts
              | .eos =>
                  match s with
                  | [] => .next ((rest, s, caps) :: alts)
                  | _ :: _ => .next alts
              | .cat a b => .next ((.re a :: .re b :: rest, s, caps) :: alts)
              | .alt a b =>
                  .next ((.re a :: rest, s, caps) :: (.re b :: rest, s, caps) :: alts)
              | .grp i a => .next ((.re a :: .close i s :: rest, s, caps) :: alts)
              | .look a =>
                  if lookFn a s then .next ((rest, s, caps) :: alts) else .next alts
              | .rep lo hi lz a =>
                  match lo with
                  | n + 1 =>
                      .next ((.re a :: .re (.rep n (hiDec hi) lz a) :: rest, s, caps) :: alts)
                  | 0 =>
                      match hi with
                      | some 0 => .next ((rest, s, caps) :: alts)
                      | _ =>
                          let again : Alt :=
                            (.re a :: .prog s :: .re (.rep 0 (hiDec hi) lz a) :: rest, s, caps)
                          let skip : Alt := (rest, s, caps)
                          if lz then .next (skip :: again :: alts)
                          else .next (again :: skip :: alts)

/-- The body of the fuel-indexed driver loop. -/
def vmRunF (ci : Bool) (lookFn : Re → List Char → Bool) (recur : List Alt → Option MRes)
    (st : List Alt) : Option MRes :=
  match vmStep ci lookFn st with
  | .done r => some r
  | .nomatch => none
  | .next st2 => recur st2

/-- The tail-recursive machine driver, tied through Nat.rec so that each
step peels one literal off the fuel.  The fuel bounds the number of machine
steps; it is irrelevant to the compositional theorems (which are
conditioned on observed matcher output) and generous enough for every
concrete evaluation in this file. -/
def vmRun (ci : Bool) (lookFn : Re → List Char → Bool) (fuel : Nat) :
    List Alt → Option MRes :=
  Nat.rec (motive := fun _ => List Alt → Option MRes) (fun _ => none)
    (fun _ ih => vmRunF ci lookFn ih) fuel

/-- Standard fuel for all pattern applications in this development. -/
def vmFuel : Nat := 1000000

/-- The machine without lookahead support (no pattern of this program nests
a lookahead inside a lookahead). -/
def vmTry0 (ci : Bool) (re : Re) (s : List Char) : Option MRes :=
  vmRun ci (fun _ _ => false) vmFuel [([.re re], s, [])]

/-- Lookahead test: does the sub-pattern match here?  (The one lookahead in
the sources, in the ESSA barcode pattern, contains no capture groups, so
dropping lookahead-internal captures is faithful.) -/
def lookSub (ci : Bool) : Re → List Char → Bool := fun a s =>
  (vmTry0 ci a s).isSome

/-- Try to match at the current position; group 0 is the whole match. -/
def tryAt (ci : Bool) (re : Re) (s : List Char) : Option MRes :=
  vmRun ci (lookSub ci) vmFuel [([.re (.grp 0 re)], s, [])]

/-- re.search: try each start position left to right. -/
def searchL (ci : Bool) (re : Re) : List Char → Option Caps
  | [] =>
      match tryAt ci re [] with
      | some (_, caps) => some caps
      | none => none
  | s@(_ :: rest) =>
      match tryAt ci re s with
      | some (_, caps) => some caps
      | none => searchL ci re rest

/-- re.findall worker: scan left to right, resuming after each match
(advancing one character past an empty match, as Python does). -/
def findallAux (ci : Bool) (re : Re) : Nat → List Char → List Caps
  | 0, _ => []
  | n + 1, s =>
      match tryAt ci re s with
      | some (s2, caps) =>
          if s2.length < s.length then caps :: findallAux ci re n s2
          else
            match s with
            | [] => [caps]
            | _ :: rest => caps :: findallAux ci re n rest
      | none =>
          match s with
          | [] => []
          | _ :: rest => findallAux ci re n rest

/-- re.search on a string. -/
def search (ci : Bool) (re : Re) (t : String) : Option Caps :=
  searchL ci re t.data

/-- The text of one captured group. -/
def grpStr (caps : Caps) (i : Nat) : String :=
  String.mk (capGet caps i)

/-- re.search followed by match.group(1). -/
def search1 (ci : Bool) (re : Re) (t : String) : Option String :=
  (search ci re t).map (fun c => grpStr c 1)

/-- re.findall, all capture stores. -/
def findallG (ci : Bool) (re : Re) (t : String) : List Caps :=
  findallAux ci re (t.data.length + 1) t.data

/-- re.findall for a pattern with exactly one group. -/
def findall1 (ci : Bool) (re : Re) (t : String) : List String :=
  (findallG ci re t).map (fun c => grpStr c 1)

/-- re.findall for a pattern without groups (whole matches). -/
def findall0 (ci : Bool) (re : Re) (t : String) : List String :=
  (findallG ci re t).map (fun c => grpStr c 0)

/-- re.match followed by access to the groups: anchored at position 0. -/
def matchAt (ci : Bool) (re : Re) (t : String) : Option Caps :=
  (tryAt ci re t.data).map Prod.snd

/-
  String helpers mirroring the Python string operations used by the source.
-/

/-- Python str.strip on the left. -/
def pstripL (s : List Char) : List Char :=
  ((s.dropWhile isPySpace).reverse.dropWhile isPySpace).reverse

/-- Python str.strip (ASCII whitespace, which covers all texts involved). -/
def pstrip (s : String) : String :=
  String.mk (pstripL s.data)

/-- List prefix test. -/
def pfxL : List Char → List Char → Bool
  | [], _ => true
  | _ :: _, [] => false
  | a :: as2, b :: bs => a == b && pfxL as2 bs

/-- Python str.replace worker: replace every non-overlapping occurrence,
left to right.  The fuel is the input length, enough because the (always
nonempty) pattern consumes at least one character per replacement. -/
def replL (pat rep : List Char) : Nat → List Char → List Char
  | 0, s => s
  | _ + 1, [] => []
  | n + 1, s@(c :: rest) =>
      if pat ≠ [] && pfxL pat s then rep ++ replL pat rep n (s.drop pat.length)
      else c :: replL pat rep n rest

/-- Python str.replace. -/
def sreplace (s pat rep : String) : String :=
  String.mk (replL pat.data rep.data (s.data.length + 1) s.data)

/-- Python str.split on a newline, worker. -/
def splitNlL : List Char → List (List Char)
  | [] => [[]]
  | c :: rest =>
      let r := splitNlL rest
      if c = '\n' then [] :: r
      else
        match r with
        | [] => [[c]]
        | h :: t2 => (c :: h) :: t2

/-- Python text.split(backslash-n): keeps empty pieces, yields one empty
piece on the empty string. -/
def splitNl (s : String) : List String :=
  (splitNlL s.data).map String.mk

/-- Python str.upper (ASCII portion). -/
def supper (s : String) : String :=
  String.mk (s.data.map Char.toUpper)

/-- Python substring containment, worker. -/
def containsSubL (sub : List Char) : List Char → Bool
  | [] => sub.isEmpty
  | s@(_ :: rest) => pfxL sub s || containsSubL sub rest

/-- Python substring containment (the in operator on str). -/
def containsSub (s sub : String) : Bool :=
  containsSubL sub.data s.data

/-- First-occurrence deduplication, modelling list(set(xs)) for string
lists.  (CPython's set order is unspecified; no claim depends on it, and
every concrete evaluation in this file has at most one element.) -/
def dedupAux (seen : List String) : List String → List String
  | [] => []
  | x :: rest => if seen.contains x then dedupAux seen rest else x :: dedupAux (x :: seen) rest

/-- list(set(xs)) for string lists. -/
def dedupFirst (l : List String) : List String :=
  dedupAux [] l

/-
  Numeric conversions.  Python float values produced by this program are
  modelled as exact rationals: every number the program handles is a decimal
  literal of at most 12 significant digits, hence exactly representable as a
  double, so rational arithmetic agrees with the source for every value and
  comparison appearing in the claims.
-/

/-- Value of a digit list. -/
def digitsVal (l : List Char) : Nat :=
  l.foldl (fun acc c => acc * 10 + (c.toNat - 48)) 0

/-- Apply an optional leading minus sign. -/
def qSign (neg : Bool) (q : ℚ) : ℚ :=
  if neg then -q else q

/-- Python float(s) on the strings this program can produce: optional sign,
then digits with at most one decimal point (and at least one digit).
Returns none exactly when Python raises ValueError (for example on the
empty string, a bare sign, a bare dot, or repeated dots). -/
def pyFloat (s : String) : Option ℚ :=
  let cs := s.data
  let sgn : Bool × List Char :=
    match cs with
    | '-' :: r => (true, r)
    | '+' :: r => (false, r)
    | _ => (false, cs)
  let ip := sgn.2.takeWhile Char.isDigit
  let rest := sgn.2.drop ip.length
  match rest with
  | [] => if ip.isEmpty then none else some (qSign sgn.1 (digitsVal ip))
  | '.' :: fr =>
      if fr.all Char.isDigit && (!ip.isEmpty || !fr.isEmpty) then
        some (qSign sgn.1 ((digitsVal ip : ℚ) + (digitsVal fr : ℚ) / ((10 : ℚ) ^ fr.length)))
      else none
  | _ => none

/-- Python int(s) on the strings this program can produce (digit runs). -/
def pyInt (s : String) : Option Int :=
  let cs := s.data
  if !cs.isEmpty && cs.all Char.isDigit then some (digitsVal cs : Int) else none

/-- The one runtime exception the extractors can raise: a ValueError from a
float() or int() conversion, carrying the offending string. -/
inductive Err where
  | conv (s : String)
deriving DecidableEq, Repr

/-- Equality of Except values is decidable componentwise. -/
instance {ε α : Type} [DecidableEq ε] [DecidableEq α] : DecidableEq (Except ε α) := fun a b =>
  match a, b with
  | .ok x, .ok y =>
      match decEq x y with
      | .isTrue h => .isTrue (by rw [h])
      | .isFalse h => .isFalse fun he => h (by injection he)
  | .ok _, .error _ => .isFalse fun he => by injection he
  | .error _, .ok _ => .isFalse fun he => by injection he
  | .error x, .error y =>
      match decEq x y with
      | .isTrue h => .isTrue (by rw [h])
      | .isFalse h => .isFalse fun he => h (by injection he)

/-- float() with exception propagation. -/
def pyFloatE (s : String) : Except Err ℚ :=
  match pyFloat s with
  | some q => .ok q
  | none => .error (.conv s)

/-- int() with exception propagation. -/
def pyIntE (s : String) : Except Err Int :=
  match pyInt s with
  | some n => .ok n
  | none => .error (.conv s)

/-- A Python list comprehension over a fallible element conversion: elements
left to right, the first escaping exception aborts the whole comprehension. -/
def mapE {α β : Type} (f : α → Except Err β) : List α → Except Err (List β)
  | [] => .ok []
  | x :: rest => do
      let v ← f x
      let tail ← mapE f rest
      pure (v :: tail)

/-
  Python dicts as insertion-ordered association lists.
-/

/-- Scalar field values appearing in the extraction results. -/
inductive Val where
  | s (v : String)
  | q (v : ℚ)
  | z (v : Int)
  | ls (v : List String)
  | qs (v : List ℚ)
deriving DecidableEq, Repr

/-- Dict read. -/
def dlookup {α : Type} (k : String) : List (String × α) → Option α
  | [] => none
  | (k2, v) :: rest => if k2 = k then some v else dlookup k rest

/-- Dict write: replace in place when the key exists, append otherwise
(Python dict insertion-order semantics). -/
def dinsert {α : Type} (d : List (String × α)) (k : String) (v : α) : List (String × α) :=
  match d with
  | [] => [(k, v)]
  | (k2, w) :: rest => if k2 = k then (k2, v) :: rest else (k2, w) :: dinsert rest k v

/-- Conditionally store a string field: the ubiquitous
if match: d[key] = match.group(1) idiom. -/
def addS (d : List (String × Val)) (k : String) (o : Option String) : List (String × Val) :=
  match o with
  | some v => dinsert d k (.s v)
  | none => d

/-
  Aggregation helpers (Python max, min, sum over a nonempty float list).
-/

/-- Python max on a nonempty list (0 as junk value on []). -/
def qmax : List ℚ → ℚ
  | [] => 0
  | x :: rest => rest.foldl max x

/-- Python min on a nonempty list (0 as junk value on []). -/
def qmin : List ℚ → ℚ
  | [] => 0
  | x :: rest => rest.foldl min x

/-- Python sum. -/
def qsum (l : List ℚ) : ℚ :=
  l.foldl (· + ·) 0

/-- Arithmetic mean, as computed by sum(xs)/len(xs). -/
def qmean (l : List ℚ) : ℚ :=
  qsum l / (l.length : ℚ)

/-
  Pattern construction helpers.
-/

/-- Concatenate a pattern list. -/
def rcat (l : List Re) : Re :=
  l.foldr Re.cat .eps

/-- A literal string pattern. -/
def rstr (s : String) : Re :=
  rcat (s.data.map Re.lit)

/-- Greedy plus. -/
def rplus (r : Re) : Re :=
  .rep 1 none false r

/-- Greedy star. -/
def rstar (r : Re) : Re :=
  .rep 0 none false r

/-- Question mark. -/
def ropt (r : Re) : Re :=
  .rep 0 (some 1) false r

/-- Lazy star. -/
def rlazystar (r : Re) : Re :=
  .rep 0 none true r

/-- Lazy plus. -/
def rlazyplus (r : Re) : Re :=
  .rep 1 none true r

/-- Exact repetition count. -/
def rexact (n : Nat) (r : Re) : Re :=
  .rep n (some n) false r

/-- At-least repetition. -/
def ratleast (n : Nat) (r : Re) : Re :=
  .rep n none false r

/-- Bounded repetition. -/
def rbetween (a b : Nat) (r : Re) : Re :=
  .rep a (some b) false r

/-- The backslash-d pattern. -/
def cD : Re := .cls false [.digit]

/-- The backslash-s pattern. -/
def cS : Re := .cls false [.space]

/-- The backslash-w pattern. -/
def cW : Re := .cls false [.word]

/-- One-or-more whitespace. -/
def ws1 : Re := rplus cS

/-- Zero-or-more whitespace. -/
def ws0 : Re := rstar cS

/-- Dot without DOTALL. -/
def dotn : Re := .anych false

/-- Dot with DOTALL. -/
def dota : Re := .anych true

/-- The class of digits and commas. -/
def dComma : Re := rplus (.cls false [.digit, .ch ','])

/-- The class of digits, commas and dots. -/
def dCommaDot : Re := rplus (.cls false [.digit, .ch ',', .ch '.'])

/-- The class of digits and dashes. -/
def dDash : Re := rplus (.cls false [.digit, .ch '-'])

/-- The class of digits and colons. -/
def dColon : Re := rplus (.cls false [.digit, .ch ':'])

/-- The class of digits and slashes. -/
def dSlash : Re := rplus (.cls false [.digit, .ch '/'])

/-- Anything but a newline, one or more, greedy. -/
def notNl1 : Re := rplus (.cls true [.ch '\n'])

/-- An optional dollar sign written as a one-character class. -/
def optDollar : Re := ropt (.cls false [.ch '$'])

/-
  ===========================================================================
  ESSA family: patterns of ESSA/data_extractor.py, in source order.
  ===========================================================================
-/

/-- ESSA line 50: the invoice-number pattern. -/
def essaPatFactura : Re :=
  rcat [rstr "FACTURA", ws1, rstr "ELECTRÓNICA", ws1, rstr "DE", ws1, rstr "VENTA", ws1,
    .grp 1 (rplus cW)]

/-- ESSA line 56: the CUFE pattern (searched with IGNORECASE). -/
def essaPatCufe : Re :=
  rcat [rstr "CUFE:", ws0, .grp 1 (rplus (.cls false [.range 'a' 'f', .range '0' '9']))]

/-- ESSA line 62: the DIAN resolution pattern. -/
def essaPatResolucion : Re :=
  rcat [rstr "Resolución", ws1, rstr "DIAN", ropt (.lit ':'), ws0, rstr "Autorización", ws1,
    rstr "número", ws1, .grp 1 (rplus cD), ws1, rstr "DEL", ws1, .grp 2 dDash]

/-- ESSA line 69: the authorized-range pattern. -/
def essaPatRango : Re :=
  rcat [rstr "RANGO", ws1, .grp 1 (rplus cD), ws1, rstr "HASTA", ws1, rstr "LA", ws1,
    .grp 2 (rplus cD)]

/-- ESSA line 76: the TOTAL A PAGAR pattern (findall, IGNORECASE). -/
def essaPatTotal : Re :=
  rcat [rstr "TOTAL", ws1, rstr "A", ws1, rstr "PAGAR", ws1, optDollar, ws0, .grp 1 dComma]

/-- ESSA line 89: the retailer-name pattern. -/
def essaPatNombreCom : Re :=
  rcat [rstr "Nombre:", ws0, .grp 1 (.cat notNl1 (.alt (rstr "S.A.") (rstr "E.S.P.")))]

/-- ESSA line 95: the retailer-NIT pattern. -/
def essaPatNitCom : Re :=
  rcat [rstr "NIT:", ws0, .grp 1 dDash]

/-- ESSA line 101: the retailer-address pattern. -/
def essaPatDireccionCom : Re :=
  rcat [rstr "Dirección:", ws0, .grp 1 (rlazyplus (.cls true [.ch '\n'])),
    .alt (rstr "Municipio") (.alt (rstr "Teléfono") (.lit '\n'))]

/-- ESSA line 107: the retailer-municipality pattern. -/
def essaPatMunicipioCom : Re :=
  rcat [rstr "Municipio:", ws0, .grp 1 (rplus (.cls true [.space]))]

/-- ESSA line 113: the retailer-phone pattern. -/
def essaPatTelefonoCom : Re :=
  rcat [rstr "Teléfono", ws0, .grp 1 (rplus cD)]

/-- ESSA line 125: the primary account/NIU pattern (IGNORECASE). -/
def essaPatNiu : Re :=
  rcat [rstr "Código", ws1, rstr "Cuenta-NIU", ws0, .grp 1 (rplus cD)]

/-- ESSA line 132: the alternate account/NIU pattern. -/
def essaPatNiuAlt : Re :=
  rcat [rstr "CUENTA-NIU", ws0, .grp 1 (rplus cD)]

/-- ESSA line 144: the billing-period pattern (IGNORECASE). -/
def essaPatPeriodo : Re :=
  rcat [rstr "Periodo", ws1, rstr "Facturado", ws1, rstr "Desde:", ws0, .grp 1 dDash, ws1,
    rstr "Hasta:", ws0, .grp 2 dDash]

/-- ESSA line 151: the generation timestamp pattern (IGNORECASE). -/
def essaPatGeneracion : Re :=
  rcat [rstr "Fecha", ws1, rstr "y", ws1, rstr "Hora", ws1, rstr "Generación:", ws0,
    .grp 1 (rcat [dDash, ws1, dColon, ropt (.cat (.lit '-') dColon)])]

/-- ESSA line 157: the due-date pattern (IGNORECASE). -/
def essaPatVencimiento : Re :=
  rcat [rstr "Fecha", ws1, rstr "de", ws1, rstr "Vencimiento:", ws0, .grp 1 dDash]

/-- ESSA line 163: the payment-form pattern (IGNORECASE). -/
def essaPatFormaPago : Re :=
  rcat [rstr "Forma", ws1, rstr "de", ws1, rstr "Pago:", ws0, .grp 1 (rplus cW)]

/-- ESSA line 176: the bounded table-region pattern (DOTALL, IGNORECASE):
from the literal column-header line, lazily up to a terminating marker. -/
def essaPatTabla : Re :=
  rcat [rstr "Nro.", ws1, rstr "CÓDIGO", ws1, rstr "CONCEPTO", ws1, rstr "UNIDAD", ws1,
    rstr "VR\\UNIDAD", ws1, rstr "CANTIDAD", ws1, rstr "IVA", ws1, rstr "SALDO", ws1,
    rstr "VALOR", ws1, rstr "MES", .grp 1 (rlazystar dota),
    .alt (rcat [rstr "Valor", ws1, rstr "Reclamacion"])
      (rcat [rstr "TOTAL", ws1, rstr "A", ws1, rstr "PAGAR"])]

/-- The unit-of-measure alternation Peso, KWH, or K followed by digits. -/
def essaUnidad : Re :=
  .alt (rstr "Peso") (.alt (rstr "KWH") (.cat (.lit 'K') (rplus cD)))

/-- ESSA line 194: the strict 9-field per-line pattern, applied anchored by
re.match to whole stripped lines (the trailing anchor is kept). -/
def essaPatLinea : Re :=
  rcat [.grp 1 (rplus cD), ws1, .grp 2 (rplus cD), ws1,
    .grp 3 (rlazyplus (.cls false [.range 'A' 'Z', .space])), ws1, .grp 4 essaUnidad, ws1,
    .grp 5 dCommaDot, ws1, .grp 6 dCommaDot, ws1, .grp 7 (rplus cD), ws1, .grp 8 (rplus cD),
    ws1, .grp 9 dComma, .eos]

/-- ESSA line 214: the looser whole-text 9-field pattern (tier b). -/
def essaPatConceptoAlt : Re :=
  rcat [.grp 1 (rplus cD), ws1, .grp 2 (rexact 3 cD), ws1,
    .grp 3 (.cat (.cls false [.range 'A' 'Z']) (rlazyplus (.cls false [.range 'A' 'Z', .space]))),
    ws1, .grp 4 essaUnidad, ws1, .grp 5 dCommaDot, ws1, .grp 6 dCommaDot, ws1,
    .grp 7 (rplus cD), ws1, .grp 8 (rplus cD), ws1, .grp 9 dComma]

/-- ESSA line 243: the per-known-concept pattern of tier c, interpolating
the known code, name and unit literally. -/
def essaEspecifico (codigo nombre unidad : String) : Re :=
  rcat [rstr codigo, ws1, rstr nombre, rlazystar dotn, rstr unidad, ws1, .grp 1 dCommaDot,
    ws1, .grp 2 dCommaDot, ws1, .grp 3 (rplus cD), ws1, .grp 4 (rplus cD), ws1, .grp 5 dComma]

/-- ESSA line 280: the claim-value pattern (IGNORECASE). -/
def essaPatReclamacion : Re :=
  rcat [rstr "Valor", ws1, rstr "Reclamacion:", ws0, .grp 1 dComma]

/-- ESSA line 286: the frozen-value pattern (IGNORECASE). -/
def essaPatCongelado : Re :=
  rcat [rstr "Valor", ws1, rstr "Congelado:", ws0, .grp 1 dComma]

/-- ESSA line 292: the line-count pattern (IGNORECASE). -/
def essaPatLineasTot : Re :=
  rcat [rstr "Total", ws1, rstr "Lineas:", ws0, .grp 1 (rplus cD)]

/-- ESSA line 304: the system pattern. -/
def essaPatSistema : Re :=
  rcat [rstr "Sistema:", ws0, .grp 1 (rplus (.cls true [.space]))]

/-- ESSA line 310: the ACTSIS NIT pattern. -/
def essaPatActsis : Re :=
  rcat [rstr "ACTSIS", ws1, rstr "LTDA,", ws1, rstr "NIT:", ws0, .grp 1 dDash]

/-- ESSA line 316: the e-mail pattern (findall). -/
def essaPatEmail : Re :=
  .grp 1 (rcat [rplus cW, .lit '@', rplus cW, .lit '.', rplus cW])

/-- ESSA line 328: the bank-account pattern (IGNORECASE). -/
def essaPatCuenta : Re :=
  rcat [rstr "cuenta", ws1, rstr "corriente", ws1, rstr "número", ws0, .grp 1 dDash, ws1,
    rstr "del", ws1, rstr "Banco", ws1, .grp 2 (rplus cW)]

/-- ESSA line 335: the collection-mail alternation (findall, no groups). -/
def essaPatCorreos : Re :=
  .alt (rstr "recaudos@essa.com.co") (rstr "linderman.rodriguez@essa.com.co")

/-- ESSA line 341: the contact-phone pattern (IGNORECASE). -/
def essaPatTelContacto : Re :=
  rcat [rstr "teléfono:", ws0, .grp 1 (rplus cD), ws1, rstr "extensión", ws0, .grp 2 (rplus cD)]

/-- ESSA line 354: the monetary-token pattern: 7 or more digits followed by
digits or commas, after an optional dollar sign and whitespace. -/
def essaPatMoney : Re :=
  rcat [optDollar, ws0, .grp 1 (.cat (ratleast 7 cD) (rstar (.cls false [.digit, .ch ','])))]

/-- ESSA line 371: the barcode-chunk pattern with its lookahead. -/
def essaPatCodigo : Re :=
  rcat [.lit '(', .grp 1 (ratleast 3 cD), .lit ')', .grp 2 (rlazyplus (.cls true [.ch '('])),
    .look (.alt (.lit '(') .eos)]

/-- ESSA line 378: the specific final barcode pattern. -/
def essaPatCodigoFinal : Re :=
  rcat [rstr "(415)", .grp 1 (rplus cD), rstr "(8020)", .grp 2 (rplus cD), rstr "(3900)",
    .grp 3 (rplus cD), rstr "(96)", .grp 4 (rplus cD)]

/-
  ESSA extraction functions (ESSA/data_extractor.py, one Lean definition per
  method, same field keys, same order of effects).
-/

/-- One row of the ESSA billed-charges table (LineItem). -/
structure EssaConcepto where
  numero : Int
  codigo : String
  concepto : String
  unidad : String
  valor_unidad : ℚ
  cantidad : ℚ
  iva : ℚ
  saldo : ℚ
  valor_mes : ℚ
deriving DecidableEq, Repr

/-- The total_pagar step of ESSA extraer_informacion_general (lines
76-80): convert the last findall match, if any, with an unguarded float()
after stripping commas. -/
def essaTotalPagarStep (d : List (String × Val)) (o : Option String) :
    Except Err (List (String × Val)) :=
  match o with
  | none => .ok d
  | some m => do
      let v ← pyFloatE (sreplace m "," "")
      pure (dinsert d "total_pagar" (.q v))

/-- ESSA extraer_informacion_general (lines 45-82).  All fields but the
last are plain captures; total_pagar converts the last findall match with
an unguarded float() after stripping commas. -/
def essa_informacion_general (t : String) : Except Err (List (String × Val)) :=
  let d : List (String × Val) := []
  let d := addS d "numero_factura" (search1 false essaPatFactura t)
  let d := addS d "cufe" (search1 true essaPatCufe t)
  let d :=
    match search true essaPatResolucion t with
    | some c => dinsert (dinsert d "resolucion_dian" (.s (grpStr c 1))) "fecha_resolucion"
        (.s (grpStr c 2))
    | none => d
  let d :=
    match search false essaPatRango t with
    | some c => dinsert (dinsert d "rango_desde" (.s (grpStr c 1))) "rango_hasta"
        (.s (grpStr c 2))
    | none => d
  essaTotalPagarStep d (findall1 true essaPatTotal t).getLast?

/-- ESSA extraer_datos_comercializador (lines 84-118). -/
def essa_datos_comercializador (t : String) : List (String × Val) :=
  let d : List (String × Val) := []
  let d := addS d "nombre" ((search1 false essaPatNombreCom t).map pstrip)
  let d := addS d "nit" (search1 false essaPatNitCom t)
  let d := addS d "direccion" ((search1 false essaPatDireccionCom t).map pstrip)
  let d := addS d "municipio" (search1 false essaPatMunicipioCom t)
  let d := addS d "telefono" (search1 false essaPatTelefonoCom t)
  d

/-- ESSA extraer_datos_cliente (lines 120-137): primary pattern first, the
alternate pattern only when the key is still absent. -/
def essa_datos_cliente (t : String) : List (String × Val) :=
  let d : List (String × Val) := []
  let d := addS d "codigo_cuenta_niu" (search1 true essaPatNiu t)
  let d :=
    if (dlookup "codigo_cuenta_niu" d).isSome then d
    else addS d "codigo_cuenta_niu" (search1 false essaPatNiuAlt t)
  d

/-- ESSA extraer_periodo_facturacion (lines 139-168). -/
def essa_periodo_facturacion (t : String) : List (String × Val) :=
  let d : List (String × Val) := []
  let d :=
    match search true essaPatPeriodo t with
    | some c => dinsert (dinsert d "fecha_desde" (.s (grpStr c 1))) "fecha_hasta"
        (.s (grpStr c 2))
    | none => d
  let d := addS d "fecha_hora_generacion" (search1 true essaPatGeneracion t)
  let d := addS d "fecha_vencimiento" (search1 true essaPatVencimiento t)
  let d := addS d "forma_pago" (search1 true essaPatFormaPago t)
  d

/-- Build one ESSA line item from the nine captures shared by the tier a
and tier b patterns (lines 198-208 and 218-228): int() on the sequence
number, float() with comma stripping on the monetary captures, all
unguarded. -/
def essaLinea (c : Caps) : Except Err EssaConcepto := do
  let numero ← pyIntE (grpStr c 1)
  let vu ← pyFloatE (sreplace (grpStr c 5) "," "")
  let ca ← pyFloatE (sreplace (grpStr c 6) "," "")
  let iv ← pyFloatE (grpStr c 7)
  let sa ← pyFloatE (grpStr c 8)
  let vm ← pyFloatE (sreplace (grpStr c 9) "," "")
  pure ⟨numero, grpStr c 2, pstrip (grpStr c 3), grpStr c 4, vu, ca, iv, sa, vm⟩

/-- Tier a line loop (lines 184-209): strip each line, skip empty ones,
keep the lines matched by the strict anchored pattern. -/
def essaTierALoop : List String → Except Err (List EssaConcepto)
  | [] => .ok []
  | l :: rest =>
      let l2 := pstrip l
      if l2 = "" then essaTierALoop rest
      else
        match matchAt false essaPatLinea l2 with
        | none => essaTierALoop rest
        | some c => do
            let item ← essaLinea c
            let tail ← essaTierALoop rest
            pure (item :: tail)

/-- Tier a (lines 174-209): bounded-region table scan. -/
def essa_tierA (t : String) : Except Err (List EssaConcepto) :=
  match search true essaPatTabla t with
  | none => .ok []
  | some c => essaTierALoop (splitNl (pstrip (grpStr c 1)))

/-- Tier b loop over whole-text findall matches (lines 215-229). -/
def essaTierBLoop : List Caps → Except Err (List EssaConcepto)
  | [] => .ok []
  | c :: rest => do
      let item ← essaLinea c
      let tail ← essaTierBLoop rest
      pure (item :: tail)

/-- Tier b (lines 212-229): looser whole-text scan. -/
def essa_tierB (t : String) : Except Err (List EssaConcepto) :=
  essaTierBLoop (findallG false essaPatConceptoAlt t)

/-- The literal tier c fixture rows (lines 234-239):
code, name, unit, unit price, quantity, tax, balance, period value. -/
def essaConceptosConocidos :
    List (String × String × String × String × String × String × String × String) :=
  [("672", "CPROG", "Peso", "79,059,512.0000", "1", "0", "0", "79,059,512"),
   ("384", "PEAJE ACTIVA", "KWH", "11.5377", "3,638,002", "0", "0", "41,974,020"),
   ("636", "PEAJE INDUCTIVA FA", "K5", "7,342,282.0000", "1", "0", "0", "7,342,282"),
   ("499", "ADD CENTRO", "Peso", "391,250.0000", "1", "0", "0", "391,250")]

/-- Tier c loop (lines 241-271): for each known concept, search its
specific pattern; on a match parse the captured numbers, otherwise parse
the predefined literal values. -/
def essaTierCLoop (t : String) :
    Nat → List (String × String × String × String × String × String × String × String) →
    Except Err (List EssaConcepto)
  | _, [] => .ok []
  | i, (codigo, nombre, unidad, valorUnit, cantidad, iva, saldo, valorMes) :: rest => do
      let item ←
        match search false (essaEspecifico codigo nombre unidad) t with
        | some c => do
            let vu ← pyFloatE (sreplace (grpStr c 1) "," "")
            let ca ← pyFloatE (sreplace (grpStr c 2) "," "")
            let iv ← pyFloatE (grpStr c 3)
            let sa ← pyFloatE (grpStr c 4)
            let vm ← pyFloatE (sreplace (grpStr c 5) "," "")
            pure (⟨(i : Int), codigo, nombre, unidad, vu, ca, iv, sa, vm⟩ : EssaConcepto)
        | none => do
            let vu ← pyFloatE (sreplace valorUnit "," "")
            let ca ← pyFloatE (sreplace cantidad "," "")
            let iv ← pyFloatE iva
            let sa ← pyFloatE saldo
            let vm ← pyFloatE (sreplace valorMes "," "")
            pure (⟨(i : Int), codigo, nombre, unidad, vu, ca, iv, sa, vm⟩ : EssaConcepto)
      let tail ← essaTierCLoop t (i + 1) rest
      pure (item :: tail)

/-- Tier c (lines 232-271): known-document literal fallback, enumerated
from 1. -/
def essa_tierC (t : String) : Except Err (List EssaConcepto) :=
  essaTierCLoop t 1 essaConceptosConocidos

/-- ESSA extraer_conceptos_facturados (lines 170-273): tier a, then tier b
only when tier a produced nothing, then tier c only when both produced
nothing. -/
def essa_conceptos_facturados (t : String) : Except Err (List EssaConcepto) := do
  let a ← essa_tierA t
  if a.isEmpty then do
    let b ← essa_tierB t
    if b.isEmpty then essa_tierC t
    else pure b
  else pure a

/-- ESSA extraer_informacion_pago (lines 275-297). -/
def essa_informacion_pago (t : String) : Except Err (List (String × Val)) := do
  let d : List (String × Val) := []
  let d ←
    match search1 true essaPatReclamacion t with
    | some m => do
        let v ← pyFloatE (sreplace m "," "")
        pure (dinsert d "valor_reclamacion" (.q v))
    | none => pure d
  let d ←
    match search1 true essaPatCongelado t with
    | some m => do
        let v ← pyFloatE (sreplace m "," "")
        pure (dinsert d "valor_congelado" (.q v))
    | none => pure d
  let d ←
    match search1 true essaPatLineasTot t with
    | some m => do
        let v ← pyIntE m
        pure (dinsert d "total_lineas" (.z v))
    | none => pure d
  pure d

/-- ESSA extraer_datos_tecnicos (lines 299-321). -/
def essa_datos_tecnicos (t : String) : List (String × Val) :=
  let d : List (String × Val) := []
  let d := addS d "sistema" (search1 false essaPatSistema t)
  let d := addS d "actsis_nit" (search1 false essaPatActsis t)
  let ms := findall1 false essaPatEmail t
  let d := if ms.isEmpty then d else dinsert d "emails" (.ls (dedupFirst ms))
  d

/-- ESSA extraer_informacion_recaudo (lines 323-347). -/
def essa_informacion_recaudo (t : String) : List (String × Val) :=
  let d : List (String × Val) := []
  let d :=
    match search true essaPatCuenta t with
    | some c => dinsert (dinsert d "numero_cuenta" (.s (grpStr c 1))) "banco" (.s (grpStr c 2))
    | none => d
  let ms := findall0 false essaPatCorreos t
  let d := if ms.isEmpty then d else dinsert d "correos_recaudo" (.ls (dedupFirst ms))
  let d :=
    match search true essaPatTelContacto t with
    | some c => dinsert (dinsert d "telefono_contacto" (.s (grpStr c 1))) "extension"
        (.s (grpStr c 2))
    | none => d
  d

/-- The assembler sub-step of ESSA extraer_totales (lines 357-362): parse
every monetary token and attach the derived statistics; nothing when no
token was found. -/
def essaTotalsFrom (ms : List String) : Except Err (List (String × Val)) :=
  if ms.isEmpty then .ok []
  else do
    let valores ← mapE (fun m => pyFloatE (sreplace m "," "")) ms
    pure (dinsert (dinsert (dinsert (dinsert [] "valores_encontrados" (.qs valores))
      "valor_maximo" (.q (qmax valores))) "valor_minimo" (.q (qmin valores)))
      "promedio_valores" (.q (qmean valores)))

/-- ESSA extraer_totales (lines 349-364). -/
def essa_totales (t : String) : Except Err (List (String × Val)) :=
  essaTotalsFrom (findall1 false essaPatMoney t)

/-- Loop of ESSA extraer_codigos_barras (lines 371-375). -/
def essaCodigosLoop (d : List (String × Val)) : List Caps → List (String × Val)
  | [] => d
  | c :: rest =>
      essaCodigosLoop (dinsert d ("codigo_" ++ grpStr c 1) (.s (pstrip (grpStr c 2)))) rest

/-- ESSA extraer_codigos_barras (lines 366-386). -/
def essa_codigos_barras (t : String) : List (String × Val) :=
  let d := essaCodigosLoop [] (findallG false essaPatCodigo t)
  match search false essaPatCodigoFinal t with
  | some c =>
      dinsert (dinsert (dinsert (dinsert d "codigo_415" (.s (grpStr c 1))) "codigo_8020"
        (.s (grpStr c 2))) "codigo_3900" (.s (grpStr c 3))) "codigo_96" (.s (grpStr c 4))
  | none => d

/-- A section of an AggregateResult: either a mapping of scalar fields or
the ordered list of billed line items. -/
inductive Sect (α : Type) where
  | fields (m : List (String × Val))
  | items (l : List α)
deriving DecidableEq, Repr

/-- ESSA extraer_todos_los_datos (lines 23-43): the section dict in source
order; the Python dict literal evaluates its values in order, so the first
escaping ValueError aborts the whole extraction. -/
def essa_extraer_todos_los_datos (t : String) :
    Except Err (List (String × Sect EssaConcepto)) := do
  let ig ← essa_informacion_general t
  let com := essa_datos_comercializador t
  let cli := essa_datos_cliente t
  let per := essa_periodo_facturacion t
  let con ← essa_conceptos_facturados t
  let pag ← essa_informacion_pago t
  let tec := essa_datos_tecnicos t
  let rcd := essa_informacion_recaudo t
  let tot ← essa_totales t
  let cod := essa_codigos_barras t
  pure [("informacion_general", .fields ig), ("datos_comercializador", .fields com),
    ("datos_cliente", .fields cli), ("periodo_facturacion", .fields per),
    ("conceptos_facturados", .items con), ("informacion_pago", .fields pag),
    ("datos_tecnicos", .fields tec), ("informacion_recaudo", .fields rcd),
    ("totales", .fields tot), ("codigos_barras", .fields cod)]

/-- Outcome of one driver run (main.py): the guard on empty text, a
completed extraction, or an escaped extraction exception. -/
inductive RunOutcome (α : Type) where
  | fatalNoText
  | extracted (r : List (String × Sect α))
  | failed (e : Err)
deriving DecidableEq, Repr

/-- ESSA main.py lines 34-45: after the text source produced its string,
refuse to proceed when it is empty (sys.exit before any extraction),
otherwise run the extractor. -/
def essa_main (texto : String) : RunOutcome EssaConcepto :=
  if texto = "" then .fatalNoText
  else
    match essa_extraer_todos_los_datos texto with
    | .ok r => .extracted r
    | .error e => .failed e

/-
  ===========================================================================
  Air-e family: patterns of air-e/data_extractor.py, in source order.
  ===========================================================================
-/

/-- Air-e line 49: the NIC pattern. -/
def airePatNic : Re :=
  rcat [rstr "NIC:", ws0, .grp 1 (rplus cD)]

/-- Air-e line 55: the equivalent-document pattern. -/
def airePatDoc : Re :=
  rcat [rstr "Documento", ws1, rstr "Equivalente:", ws0, .grp 1 (rplus cD)]

/-- Air-e line 61: the collection-id pattern. -/
def airePatIdCobros : Re :=
  rcat [rstr "ID", ws1, rstr "de", ws1, rstr "Cobros:", ws0, .grp 1 (rplus cD)]

/-- Air-e line 67: the TOTAL A PAGAR pattern (findall, IGNORECASE). -/
def airePatTotal : Re :=
  rcat [rstr "TOTAL", ws1, rstr "A", ws1, rstr "PAGAR", ws1, ropt (.lit '$'), .grp 1 dCommaDot]

/-- Air-e line 75: the billed-through-date pattern. -/
def airePatPeriodoFact : Re :=
  rcat [rstr "Periodo", ws1, rstr "facturado", ws1, rstr "al", ws1, .grp 1 dSlash]

/-- Air-e line 81: the toll-level pattern. -/
def airePatUso : Re :=
  rcat [rstr "Peaje", ws1, rstr "Nivel", ws1, .grp 1 (rplus cD)]

/-- Air-e line 93: the primary customer-name pattern. -/
def airePatCliente : Re :=
  rcat [rstr "Cliente:", ws0, .grp 1 notNl1]

/-- Air-e line 100: the alternate customer-name pattern (a fixed phrase). -/
def airePatClienteAlt : Re :=
  rcat [rstr "GENERADORA", ws1, rstr "Y", ws1, rstr "COMERCIALIZADORA", ws1, rstr "DE", ws1,
    rstr "ENERGIA", ws1, rstr "DEL", ws1, rstr "CARIBE"]

/-- Air-e line 106: the customer NIT/CC pattern. -/
def airePatNit : Re :=
  rcat [rstr "NIT", ws1, rstr "o", ws1, rstr "C.C:", ws0, .grp 1 dDash]

/-- Air-e line 112: the shipping-address pattern. -/
def airePatDirEnvio : Re :=
  rcat [rstr "Dirección", ws1, rstr "del", ws1, rstr "envío:", ws0, .grp 1 notNl1]

/-- Air-e line 118: the plant-address pattern. -/
def airePatPlanta : Re :=
  rcat [rstr "Dirección", ws1, rstr "de", ws1, rstr "planta:", ws0, .grp 1 notNl1]

/-- Air-e line 124: the municipality pattern. -/
def airePatMunicipio : Re :=
  rcat [rstr "Municipio:", ws0, .grp 1 (rplus cW)]

/-- Air-e line 130: the department pattern. -/
def airePatDepto : Re :=
  rcat [rstr "Departamento:", ws0, .grp 1 (rplus cW)]

/-- Air-e line 136: the contract pattern. -/
def airePatContrato : Re :=
  rcat [rstr "Contrato", ws1, rstr "No:", ws0, .grp 1 notNl1]

/-- Air-e line 142: the usage toll-level pattern. -/
def airePatUsoPeaje : Re :=
  rcat [rstr "Uso:", ws0, rstr "Peaje", ws1, rstr "Nivel", ws1, .grp 1 (rplus cD)]

/-- Air-e line 148: the voltage-level pattern. -/
def airePatTension : Re :=
  rcat [rstr "Nivel", ws1, rstr "de", ws1, rstr "tensión:", ws0, .grp 1 notNl1]

/-- Air-e line 160: the grid-operator header phrase. -/
def airePatOperador : Re :=
  rcat [rstr "Información", ws1, rstr "del", ws1, rstr "Operador", ws1, rstr "de", ws1,
    rstr "Red", ws1, rstr "AIR-E", ws1, rstr "S.A.S", ws1, rstr "ESP"]

/-- Air-e line 166: the operator-NIT pattern. -/
def airePatNitOp : Re :=
  rcat [rstr "AIR-E", ws1, rstr "S.A.S", ws1, rstr "ESP", ws1, rstr "NIT:", ws0, .grp 1 dDash]

/-- Air-e line 172: the 115 line pattern. -/
def airePatLinea115 : Re :=
  rcat [rstr "Línea", ws1, rstr "115:", ws0, .grp 1 notNl1]

/-- Air-e line 177: the toll-free line pattern. -/
def airePatLineaGratuita : Re :=
  rcat [rstr "018000-930135:", ws0, .grp 1 notNl1]

/-- Air-e line 182: the landline pattern. -/
def airePatLineaFija : Re :=
  rcat [rstr "605-3225016:", ws0, .grp 1 notNl1]

/-- Air-e line 188: the operator-address pattern (whole match used). -/
def airePatDirOp : Re :=
  rcat [rstr "Dirección:", ws0, rstr "CR", ws1, rstr "57", ws1, rstr "CL", ws1, rstr "99A",
    notNl1]

/-- Air-e line 194: the PBX pattern. -/
def airePatPbx : Re :=
  rcat [rstr "PBX:", ws0, .lit '(', .grp 1 (rplus cD), .lit ')', .grp 2 (rplus cD)]

/-- Air-e line 200: the website pattern. -/
def airePatWeb : Re :=
  rstr "https://www.air-e.com/"

/-- Air-e line 212: the billed-period pattern (IGNORECASE). -/
def airePatPeriodo : Re :=
  rcat [rstr "Periodo", ws1, rstr "facturado:", ws0, .grp 1 dSlash]

/-- Air-e line 218: the issue-date pattern (IGNORECASE). -/
def airePatEmision : Re :=
  rcat [rstr "Fecha", ws1, rstr "de", ws1, rstr "Emisión:", ws0,
    .grp 1 (rcat [dSlash, ws1, dColon])]

/-- Air-e line 225: the alternate timestamp pattern. -/
def airePatFechaAlt : Re :=
  .grp 1 (rcat [rexact 2 cD, .lit '/', rexact 2 cD, .lit '/', rexact 4 cD, ws1, rexact 2 cD,
    .lit ':', rexact 2 cD, .lit ':', rexact 2 cD])

/-- Air-e line 231: the city-date pattern (findall, first match used). -/
def airePatCiudadFecha : Re :=
  rcat [rstr "Barranquilla", ws1,
    .grp 1 (rcat [rexact 2 cD, .lit '/', rexact 2 cD, .lit '/', rexact 4 cD])]

/-- Air-e line 237: the pay-before-date pattern (IGNORECASE). -/
def airePatVencimiento : Re :=
  rcat [rstr "Pagar", ws1, rstr "antes", ws1, rstr "del:", ws0, .grp 1 dSlash]

/-- Air-e line 243: the billed-days pattern. -/
def airePatDias : Re :=
  rcat [rstr "Días", ws1, rstr "facturados:", ws0, .grp 1 (rplus cD)]

/-- Air-e line 255: the charge-detail section pattern (DOTALL, IGNORECASE). -/
def airePatDetalle : Re :=
  rcat [rstr "Detalle", ws1, rstr "del", ws1, rstr "cobro", rlazystar dota, rstr "Conceptos",
    ws1, rstr "facturados", ws1, rstr "Valores"]

/-- Air-e line 261: the unregulated-toll pattern. -/
def airePatPeaje : Re :=
  rcat [rstr "Peaje", ws1, rstr "No", ws1, rstr "Regulado", ws1, ropt (.lit '$'),
    .grp 1 dCommaDot]

/-- Air-e line 271: the reactive-energy penalty pattern. -/
def airePatPenalizacion : Re :=
  rcat [rstr "Penalizacion", ws1, rstr "Energia", ws1, rstr "Reactiva", ws1, .lit '-', ws1,
    rstr "Peajes", ws1, ropt (.lit '$'), .grp 1 dCommaDot]

/-- Air-e line 281: the monetary-adjustment pattern (sign allowed). -/
def airePatAjuste : Re :=
  rcat [rstr "AJUSTE", ws1, rstr "MONETARIO", ws1, ropt (.lit '$'),
    .grp 1 (.cat (ropt (.lit '-')) dCommaDot)]

/-- Air-e line 291: the CPROG toll pattern. -/
def airePatCprog : Re :=
  rcat [rstr "CPROG_PEAJES", ws1, ropt (.lit '$'), .grp 1 dCommaDot]

/-- Air-e line 303: the loose labelled-amount pattern of tier b. -/
def airePatValores : Re :=
  rcat [.grp 1 (.cat (.cls false [.range 'A' 'Z'])
      (rlazyplus (.cls false [.range 'A' 'Z', .range 'a' 'z', .space, .ch '_', .ch '-']))),
    ws1, ropt (.lit '$'),
    .grp 2 (rcat [rbetween 1 3 cD, rstar (.cat (.lit '.') (rexact 3 cD)),
      ropt (.cat (.lit ',') (rexact 2 cD))])]

/-- Air-e line 335: the energy-subtotal pattern (IGNORECASE). -/
def airePatSubtotal : Re :=
  rcat [rstr "Subtotal", ws1, rstr "Energia", ws1, ropt (.lit '$'), .grp 1 dCommaDot]

/-- Air-e line 342: the previous-debt pattern (IGNORECASE). -/
def airePatDeuda : Re :=
  rcat [rstr "Deuda", ws1, rstr "facturas", ws1, rstr "anteriores", ws1, ropt (.lit '$'),
    .grp 1 dCommaDot]

/-- Air-e line 349: the monthly-billing pattern (IGNORECASE). -/
def airePatMensual : Re :=
  rcat [rstr "Facturación", ws1, rstr "Mensual", ws1, ropt (.lit '$'), .grp 1 dCommaDot]

/-- Air-e line 356: the current-balance pattern (IGNORECASE). -/
def airePatSaldo : Re :=
  rcat [rstr "Saldo", ws1, rstr "Actual", ws1, ropt (.lit '$'), .grp 1 dCommaDot]

/-- Air-e line 363: the late-interest rate pattern (IGNORECASE). -/
def airePatInteres : Re :=
  rcat [rstr "Tasa", ws1, rstr "interés", ws1, rstr "por", ws1, rstr "mora:", ws0,
    .grp 1 dCommaDot, .lit '%']

/-- Air-e line 369: the charge-id pattern (IGNORECASE). -/
def airePatIdCobro : Re :=
  rcat [rstr "Id", ws1, rstr "Cobro:", ws0, .grp 1 (rplus cD)]

/-- Air-e line 381: the billing-system phrase. -/
def airePatSistema : Re :=
  rcat [rstr "Datos", ws1, rstr "sistema", ws1, rstr "informático", ws1, rstr "OPEN", ws1,
    rstr "INTERNATIONAL", ws1, rstr "S.A.S"]

/-- Air-e line 387: the system-NIT pattern. -/
def airePatNitSistema : Re :=
  rcat [rstr "OPEN", ws1, rstr "INTERNATIONAL", ws1, rstr "S.A.S", ws1, .grp 1 (rplus cD)]

/-- Air-e line 393: the software phrase. -/
def airePatSoftware : Re :=
  rcat [rstr "Open", ws1, rstr "Smartflex"]

/-- Air-e line 399: the savings-account pattern (IGNORECASE). -/
def airePatBanco : Re :=
  rcat [rstr "cuenta", ws1, rstr "de", ws1, rstr "ahorro", ws1, rstr "No", ws1, .grp 1 dDash,
    ws1, rstr "del", ws1, rstr "banco", ws1, rstr "de", ws1, .grp 2 (rplus cW)]

/-- Air-e line 406: the trust-fund pattern. -/
def airePatFiduciaria : Re :=
  rcat [rstr "FIDUOCCIDENTE", ws1, rstr "FID", ws1, .grp 1 (rplus cD)]

/-- Air-e line 418: the monthly total pattern (IGNORECASE). -/
def airePatTotalPagarMes : Re :=
  rcat [rstr "Total", ws1, rstr "a", ws1, rstr "pagar", ws1, rstr "mes", ws1, ropt (.lit '$'),
    .grp 1 dCommaDot]

/-- Air-e line 425: the hard-coded general-total pattern (findall, first
match used). -/
def airePatTotalGeneral : Re :=
  rcat [ropt (.lit '$'), .grp 1 (rstr "341.754.770")]

/-- Air-e line 432: the monetary-token pattern: 7 or more digits, then
dot-separated 3-digit groups, after an optional dollar sign. -/
def airePatMoney : Re :=
  rcat [ropt (.lit '$'), .grp 1 (.cat (ratleast 7 cD) (rstar (.cat (.lit '.') (rexact 3 cD))))]

/-- Air-e line 457: the barcode-chunk pattern. -/
def airePatCodigo : Re :=
  rcat [.lit '(', .grp 1 (rbetween 3 4 cD), .lit ')', .grp 2 (rplus cD)]

/-- Air-e line 464: the specific full barcode pattern. -/
def airePatCodigoCompleto : Re :=
  rcat [rstr "(415)", .grp 1 (rplus cD), rstr "(8020)", .grp 2 (rplus cD), rstr "(3900)",
    .grp 3 (rplus cD), rstr "(96)", .grp 4 (rplus cD)]

/-- Air-e line 473: the bar-run pattern. -/
def airePatBarcode : Re :=
  ratleast 10 (.cls false [.ch '|'])

/-
  Air-e extraction functions (air-e/data_extractor.py).
-/

/-- One entry of the air-e billed-concepts list. -/
structure AireConcepto where
  concepto : String
  valor : ℚ
deriving DecidableEq, Repr

/-- The whole match of a search (match.group(0)). -/
def search0 (ci : Bool) (re : Re) (t : String) : Option String :=
  (search ci re t).map (fun c => grpStr c 0)

/-- The total_pagar step of air-e extraer_informacion_general (lines
67-72): convert the last findall match, if any, with an unguarded float()
after stripping commas and dots. -/
def aireTotalPagarStep (d : List (String × Val)) (o : Option String) :
    Except Err (List (String × Val)) :=
  match o with
  | none => .ok d
  | some m => do
      let v ← pyFloatE (sreplace (sreplace m "," "") "." "")
      pure (dinsert d "total_pagar" (.q v))

/-- Air-e extraer_informacion_general (lines 44-86): total_pagar converts
the last findall match with an unguarded float() after stripping commas
and dots; the two following fields are added after it. -/
def aire_informacion_general (t : String) : Except Err (List (String × Val)) := do
  let d : List (String × Val) := []
  let d := addS d "nic" (search1 false airePatNic t)
  let d := addS d "documento_equivalente" (search1 false airePatDoc t)
  let d := addS d "id_cobros" (search1 false airePatIdCobros t)
  let d ← aireTotalPagarStep d (findall1 true airePatTotal t).getLast?
  let d := addS d "periodo_facturado_hasta" (search1 false airePatPeriodoFact t)
  let d := addS d "peaje_nivel" (search1 false airePatUso t)
  pure d

/-- Air-e extraer_datos_cliente (lines 88-153): the primary name pattern
first, the fixed alternate phrase only when the key is still absent, then
the remaining customer fields. -/
def aire_datos_cliente (t : String) : List (String × Val) :=
  let d : List (String × Val) := []
  let d := addS d "nombre" ((search1 false airePatCliente t).map pstrip)
  let d :=
    if (dlookup "nombre" d).isSome then d
    else
      match search false airePatClienteAlt t with
      | some _ => dinsert d "nombre" (.s "GENERADORA Y COMERCIALIZADORA DE ENERGIA DEL CARIBE")
      | none => d
  let d := addS d "nit" (search1 false airePatNit t)
  let d := addS d "direccion" ((search1 false airePatDirEnvio t).map pstrip)
  let d := addS d "direccion_planta" ((search1 false airePatPlanta t).map pstrip)
  let d := addS d "municipio" (search1 false airePatMunicipio t)
  let d := addS d "departamento" (search1 false airePatDepto t)
  let d := addS d "contrato" ((search1 false airePatContrato t).map pstrip)
  let d := addS d "uso_peaje_nivel" (search1 false airePatUsoPeaje t)
  let d := addS d "nivel_tension" ((search1 false airePatTension t).map pstrip)
  d

/-- Air-e extraer_datos_operador (lines 155-205). -/
def aire_datos_operador (t : String) : List (String × Val) :=
  let d : List (String × Val) := []
  let d :=
    match search false airePatOperador t with
    | some _ => dinsert d "nombre" (.s "AIR-E S.A.S ESP")
    | none => d
  let d := addS d "nit" (search1 false airePatNitOp t)
  let d := addS d "linea_115" ((search1 false airePatLinea115 t).map pstrip)
  let d :=
    match search false airePatLineaGratuita t with
    | some _ => dinsert d "linea_gratuita" (.s "018000-930135")
    | none => d
  let d :=
    match search false airePatLineaFija t with
    | some _ => dinsert d "linea_fija" (.s "605-3225016")
    | none => d
  let d := addS d "direccion"
    ((search0 false airePatDirOp t).map (fun m => pstrip (sreplace m "Dirección:" "")))
  let d :=
    match search false airePatPbx t with
    | some c => dinsert d "pbx" (.s ("(" ++ grpStr c 1 ++ ")" ++ grpStr c 2))
    | none => d
  let d := addS d "website" (search0 false airePatWeb t)
  d

/-- Air-e extraer_periodo_facturacion (lines 207-248). -/
def aire_periodo_facturacion (t : String) : List (String × Val) :=
  let d : List (String × Val) := []
  let d := addS d "periodo_facturado" (search1 true airePatPeriodo t)
  let d := addS d "fecha_emision" (search1 true airePatEmision t)
  let d :=
    if (dlookup "fecha_emision" d).isSome then d
    else addS d "fecha_emision" (search1 false airePatFechaAlt t)
  let d := addS d "fecha_ciudad" (findall1 false airePatCiudadFecha t).head?
  let d := addS d "fecha_vencimiento" (search1 true airePatVencimiento t)
  let d := addS d "dias_facturados" (search1 false airePatDias t)
  d

/-- Air-e tier a (lines 254-298): gated on the charge-detail section, then
four specific concept patterns, each dividing its (unguardedly converted)
capture by 100. -/
def aire_tierA (t : String) : Except Err (List AireConcepto) :=
  match search true airePatDetalle t with
  | none => .ok []
  | some _ => do
      let l : List AireConcepto := []
      let l ←
        match search1 false airePatPeaje t with
        | some m => do
            let v ← pyFloatE (sreplace (sreplace m "," "") "." "")
            pure (l ++ [⟨"Peaje No Regulado", v / 100⟩])
        | none => pure l
      let l ←
        match search1 false airePatPenalizacion t with
        | some m => do
            let v ← pyFloatE (sreplace (sreplace m "," "") "." "")
            pure (l ++ [⟨"Penalización Energía Reactiva - Peajes", v / 100⟩])
        | none => pure l
      let l ←
        match search1 false airePatAjuste t with
        | some m => do
            let v ← pyFloatE (sreplace (sreplace m "," "") "." "")
            pure (l ++ [⟨"AJUSTE MONETARIO", v / 100⟩])
        | none => pure l
      let l ←
        match search1 false airePatCprog t with
        | some m => do
            let v ← pyFloatE (sreplace (sreplace m "," "") "." "")
            pure (l ++ [⟨"CPROG_PEAJES", v / 100⟩])
        | none => pure l
      pure l

/-- The keyword filter of air-e tier b (line 307). -/
def aireKw (s : String) : Bool :=
  containsSub s "PEAJE" || containsSub s "ENERGIA" || containsSub s "AJUSTE" ||
    containsSub s "CPROG"

/-- Air-e tier b loop (lines 303-317): keyword-filtered labelled amounts,
parse failures skipped by the local try/except, only positive values kept. -/
def aireTierBLoop : List Caps → List AireConcepto
  | [] => []
  | c :: rest =>
      let nombre := grpStr c 1
      let tail := aireTierBLoop rest
      if aireKw (supper nombre) then
        match pyFloat (sreplace (sreplace (grpStr c 2) "." "") "," ".") with
        | some v => if 0 < v then ⟨pstrip nombre, v⟩ :: tail else tail
        | none => tail
      else tail

/-- Air-e tier b (lines 301-317). -/
def aire_tierB (t : String) : List AireConcepto :=
  aireTierBLoop (findallG false airePatValores t)

/-- Air-e tier c (lines 320-326): the literal fixture (Python float
literals modelled by the exact decimals they denote). -/
def aireConceptosFijos : List AireConcepto :=
  [⟨"Peaje No Regulado", (2475438567 : ℚ) / 100⟩,
   ⟨"Penalización Energía Reactiva - Peajes", (554956 : ℚ) / 100⟩,
   ⟨"AJUSTE MONETARIO", -((23 : ℚ) / 100)⟩,
   ⟨"CPROG_PEAJES", 316994835⟩]

/-- Air-e extraer_conceptos_facturados (lines 250-328). -/
def aire_conceptos_facturados (t : String) : Except Err (List AireConcepto) := do
  let a ← aire_tierA t
  if a.isEmpty then
    let b := aire_tierB t
    if b.isEmpty then pure aireConceptosFijos
    else pure b
  else pure a

/-- Air-e extraer_informacion_pago (lines 330-374): four unguarded float
conversions plus two string fields. -/
def aire_informacion_pago (t : String) : Except Err (List (String × Val)) := do
  let d : List (String × Val) := []
  let d ←
    match search1 true airePatSubtotal t with
    | some m => do
        let v ← pyFloatE (sreplace (sreplace m "," "") "." "")
        pure (dinsert d "subtotal_energia" (.q v))
    | none => pure d
  let d ←
    match search1 true airePatDeuda t with
    | some m => do
        let v ← pyFloatE (sreplace (sreplace m "," "") "." "")
        pure (dinsert d "deuda_anterior" (.q v))
    | none => pure d
  let d ←
    match search1 true airePatMensual t with
    | some m => do
        let v ← pyFloatE (sreplace (sreplace m "," "") "." "")
        pure (dinsert d "facturacion_mensual" (.q v))
    | none => pure d
  let d ←
    match search1 true airePatSaldo t with
    | some m => do
        let v ← pyFloatE (sreplace (sreplace m "," "") "." "")
        pure (dinsert d "saldo_actual" (.q v))
    | none => pure d
  let d := addS d "tasa_interes_mora" (search1 true airePatInteres t)
  let d := addS d "id_cobro" (search1 true airePatIdCobro t)
  pure d

/-- Air-e extraer_datos_tecnicos (lines 376-411). -/
def aire_datos_tecnicos (t : String) : List (String × Val) :=
  let d : List (String × Val) := []
  let d :=
    match search false airePatSistema t with
    | some _ => dinsert d "sistema" (.s "OPEN INTERNATIONAL S.A.S")
    | none => d
  let d := addS d "nit_sistema" (search1 false airePatNitSistema t)
  let d :=
    match search false airePatSoftware t with
    | some _ => dinsert d "software" (.s "Open Smartflex")
    | none => d
  let d :=
    match search true airePatBanco t with
    | some c => dinsert (dinsert d "cuenta_bancaria" (.s (grpStr c 1))) "banco"
        (.s (grpStr c 2))
    | none => d
  let d := addS d "fiduciaria_fid" (search1 false airePatFiduciaria t)
  d

/-- The guarded per-token parse loop of air-e extraer_totales (lines
436-442): a failing conversion only skips that token. -/
def aireValoresLoop : List String → List ℚ
  | [] => []
  | m :: rest =>
      match pyFloat (sreplace m "." "") with
      | some v => v :: aireValoresLoop rest
      | none => aireValoresLoop rest

/-- The statistics step of air-e extraer_totales (lines 431-448). -/
def aireTotalsStats (d : List (String × Val)) (ms : List String) : List (String × Val) :=
  if ms.isEmpty then d
  else
    let valores := aireValoresLoop ms
    if valores.isEmpty then d
    else
      dinsert (dinsert (dinsert (dinsert d "valores_encontrados" (.qs valores))
        "valor_maximo" (.q (qmax valores))) "valor_minimo" (.q (qmin valores)))
        "promedio_valores" (.q (qmean valores))

/-- Air-e extraer_totales (lines 413-450): an unguarded monthly-total
conversion, the hard-coded general total, then the guarded statistics. -/
def aire_totales (t : String) : Except Err (List (String × Val)) := do
  let d : List (String × Val) := []
  let d ←
    match search1 true airePatTotalPagarMes t with
    | some m => do
        let v ← pyFloatE (sreplace (sreplace m "," "") "." "")
        pure (dinsert d "total_pagar_mes" (.q v))
    | none => pure d
  let d ←
    match (findall1 false airePatTotalGeneral t).head? with
    | some m => do
        let v ← pyFloatE (sreplace m "." "")
        pure (dinsert d "total_general" (.q v))
    | none => pure d
  pure (aireTotalsStats d (findall1 false airePatMoney t))

/-- Loop of air-e extraer_codigos_barras (lines 457-461). -/
def aireCodigosLoop (d : List (String × Val)) : List Caps → List (String × Val)
  | [] => d
  | c :: rest => aireCodigosLoop (dinsert d ("codigo_" ++ grpStr c 1) (.s (grpStr c 2))) rest

/-- Air-e extraer_codigos_barras (lines 452-478). -/
def aire_codigos_barras (t : String) : List (String × Val) :=
  let d := aireCodigosLoop [] (findallG false airePatCodigo t)
  let d :=
    match search false airePatCodigoCompleto t with
    | some c =>
        dinsert (dinsert (dinsert (dinsert d "codigo_415_completo" (.s (grpStr c 1)))
          "codigo_8020_completo" (.s (grpStr c 2))) "codigo_3900_completo" (.s (grpStr c 3)))
          "codigo_96_completo" (.s (grpStr c 4))
    | none => d
  let d :=
    if (findall0 false airePatBarcode t).isEmpty then d
    else dinsert d "tiene_codigo_barras" (.s "Si")
  d

/-- Air-e extraer_todos_los_datos (lines 23-42): the section dict in
source order. -/
def aire_extraer_todos_los_datos (t : String) :
    Except Err (List (String × Sect AireConcepto)) := do
  let ig ← aire_informacion_general t
  let cli := aire_datos_cliente t
  let op := aire_datos_operador t
  let per := aire_periodo_facturacion t
  let con ← aire_conceptos_facturados t
  let pag ← aire_informacion_pago t
  let tec := aire_datos_tecnicos t
  let tot ← aire_totales t
  let cod := aire_codigos_barras t
  pure [("informacion_general", .fields ig), ("datos_cliente", .fields cli),
    ("datos_operador", .fields op), ("periodo_facturacion", .fields per),
    ("conceptos_facturados", .items con), ("informacion_pago", .fields pag),
    ("datos_tecnicos", .fields tec), ("totales", .fields tot),
    ("codigos_barras", .fields cod)]

/-- Air-e main.py lines 34-49: refuse empty extracted text (sys.exit
before any extraction), otherwise run the extractor. -/
def aire_main (texto : String) : RunOutcome AireConcepto :=
  if texto = "" then .fatalNoText
  else
    match aire_extraer_todos_los_datos texto with
    | .ok r => .extracted r
    | .error e => .failed e

/-
  ===========================================================================
  IEEE-754 binary64 value model.

  The embeddings above model Python floats as exact rationals.  That is
  faithful wherever the numbers involved are small exactly-representable
  decimals or the behaviour at stake is control flow, but it is not
  faithful for the Totals statistics: CPython floats are binary64 doubles,
  string-to-float conversion rounds to the nearest double, and float
  addition rounds and can overflow to infinity, so sum(valores) can be
  inf while max(valores) stays finite.  This section models CPython
  doubles faithfully — a finite double stored as the exact rational it
  denotes, an infinity of either sign, or nan — with correctly rounded
  conversion and arithmetic (round to nearest, ties to even, as CPython
  guarantees), and re-embeds both extraer_totales functions over it.
-/

/-- A CPython float: a finite binary64 value (stored as the exact rational
it denotes), an infinity, or nan. -/
inductive PyF where
  | finite (q : ℚ)
  | inf
  | ninf
  | nan
deriving DecidableEq, Repr

/-- Round-to-nearest, ties-to-even, of a divided by b, for positive b. -/
def rneDiv (a b : Nat) : Nat :=
  let q := a / b
  let r := a % b
  if 2 * r < b then q
  else if b < 2 * r then q + 1
  else if q % 2 = 0 then q else q + 1

/-- Floor base-2 logarithm, tied through Nat.rec on a fuel that is always
sufficient (log2 n is at most n): nlog2 n = Nat.log2 n. -/
def log2Aux (fuel : Nat) : Nat → Nat :=
  Nat.rec (motive := fun _ => Nat → Nat) (fun _ => 0)
    (fun _ ih n => if 2 ≤ n then ih (n / 2) + 1 else 0) fuel

/-- Floor base-2 logarithm (0 at 0). -/
def nlog2 (n : Nat) : Nat :=
  log2Aux n n

/-- The exponent e with 2 ^ e at most n / d and n / d below 2 ^ (e + 1),
for positive n and d. -/
def qIlog2 (n d : Nat) : Int :=
  let e0 : Int := (nlog2 n : Int) - (nlog2 d : Int)
  if 0 ≤ e0 then (if d * 2 ^ e0.toNat ≤ n then e0 else e0 - 1)
  else (if d ≤ n * 2 ^ (-e0).toNat then e0 else e0 - 1)

/-- Round-to-nearest-even of (n / d) scaled by 2 ^ (52 - e). -/
def rneScaled (n d : Nat) (e : Int) : Nat :=
  if 0 ≤ 52 - e then rneDiv (n * 2 ^ (52 - e).toNat) d
  else rneDiv n (d * 2 ^ (e - 52).toNat)

/-- Round a positive rational n / d to the nearest binary64 double: 53-bit
significand, exponents -1022 to 1023, gradual underflow on the fixed
2 ^ (-1074) grid below the normal range, overflow to infinity above it. -/
def roundPos (n d : Nat) : PyF :=
  let e := qIlog2 n d
  if e < -1022 then
    .finite (mkRat (rneDiv (n * 2 ^ 1074) d : Int) (2 ^ 1074))
  else
    let m := rneScaled n d e
    let me : Nat × Int := if m = 2 ^ 53 then (2 ^ 52, e + 1) else (m, e)
    if 1023 < me.2 then .inf
    else if 52 ≤ me.2 then .finite (mkRat ((me.1 * 2 ^ (me.2 - 52).toNat : Nat) : Int) 1)
    else .finite (mkRat (me.1 : Int) (2 ^ (52 - me.2).toNat))

/-- Round any rational to the nearest double. -/
def roundDouble (q : ℚ) : PyF :=
  if q = 0 then .finite 0
  else if 0 < q then roundPos q.num.natAbs q.den
  else
    match roundPos q.num.natAbs q.den with
    | .finite r => .finite (-r)
    | .inf => .ninf
    | .ninf => .inf
    | .nan => .nan

/-- CPython float addition: correctly rounded on finite operands,
infinities absorb, opposite infinities and nan give nan. -/
def pfAdd : PyF → PyF → PyF
  | .nan, _ => .nan
  | _, .nan => .nan
  | .inf, .ninf => .nan
  | .ninf, .inf => .nan
  | .inf, _ => .inf
  | _, .inf => .inf
  | .ninf, _ => .ninf
  | _, .ninf => .ninf
  | .finite a, .finite b => roundDouble (a + b)

/-- Python sum() over a float list: a left fold of float addition from
the int 0 (whose conversion to double is exact). -/
def pfSum (l : List PyF) : PyF :=
  l.foldl pfAdd (.finite 0)

/-- Division of a float by an int, as in sum(valores)/len(valores):
correctly rounded.  (Python raises ZeroDivisionError at 0; the call site
is guarded by a nonemptiness test, so that case is unreachable.) -/
def pfDivNat : PyF → Nat → PyF
  | _, 0 => .nan
  | .nan, _ => .nan
  | .inf, _ => .inf
  | .ninf, _ => .ninf
  | .finite a, n => roundDouble (a / (n : ℚ))

/-- Python float strict comparison (nan compares false with everything). -/
def pfLt : PyF → PyF → Bool
  | .nan, _ => false
  | _, .nan => false
  | .ninf, .ninf => false
  | .ninf, _ => true
  | _, .ninf => false
  | .inf, _ => false
  | _, .inf => true
  | .finite a, .finite b => decide (a < b)

/-- Python float non-strict comparison (nan compares false). -/
def pfLe : PyF → PyF → Bool
  | .nan, _ => false
  | _, .nan => false
  | .ninf, _ => true
  | _, .ninf => false
  | _, .inf => true
  | .inf, _ => false
  | .finite a, .finite b => decide (a ≤ b)

/-- Python max(xs): start at the head, replace the current value whenever
a later item compares strictly greater.  (Python raises ValueError on an
empty sequence; the call site is guarded, so that case is unreachable.) -/
def pfMax : List PyF → PyF
  | [] => .nan
  | x :: r => r.foldl (fun cur y => if pfLt cur y then y else cur) x

/-- Python min(xs), dually. -/
def pfMin : List PyF → PyF
  | [] => .nan
  | x :: r => r.foldl (fun cur y => if pfLt y cur then y else cur) x

/-- float() to a double, with exception propagation: the accepted string
grammar is that of pyFloat (identical to Python on the strings this
program produces) and the value is correctly rounded, as CPython's
string-to-float is. -/
def pyFloatFE (s : String) : Except Err PyF :=
  match pyFloat s with
  | some q => .ok (roundDouble q)
  | none => .error (.conv s)

/-- Field values of the double-model Totals sections. -/
inductive ValF where
  | f (v : PyF)
  | fs (v : List PyF)
deriving DecidableEq, Repr

/-- The assembler sub-step of ESSA extraer_totales (lines 357-362) over
the double model: parse every monetary token to a double and attach the
derived statistics; nothing when no token was found. -/
def essaTotalsFromF (ms : List String) : Except Err (List (String × ValF)) :=
  if ms.isEmpty then .ok []
  else do
    let valores ← mapE (fun m => pyFloatFE (sreplace m "," "")) ms
    pure (dinsert (dinsert (dinsert (dinsert [] "valores_encontrados" (.fs valores))
      "valor_maximo" (.f (pfMax valores))) "valor_minimo" (.f (pfMin valores)))
      "promedio_valores" (.f (pfDivNat (pfSum valores) valores.length)))

/-- ESSA extraer_totales (lines 349-364) over the double model. -/
def essa_totales_double (t : String) : Except Err (List (String × ValF)) :=
  essaTotalsFromF (findall1 false essaPatMoney t)

/-- The guarded per-token parse loop of air-e extraer_totales (lines
436-442) over the double model: a failing conversion only skips that
token. -/
def aireValoresLoopF : List String → List PyF
  | [] => []
  | m :: rest =>
      match pyFloat (sreplace m "." "") with
      | some q => roundDouble q :: aireValoresLoopF rest
      | none => aireValoresLoopF rest

/-- The statistics step of air-e extraer_totales (lines 431-448) over the
double model. -/
def aireTotalsStatsF (d : List (String × ValF)) (ms : List String) : List (String × ValF) :=
  if ms.isEmpty then d
  else
    let valores := aireValoresLoopF ms
    if valores.isEmpty then d
    else
      dinsert (dinsert (dinsert (dinsert d "valores_encontrados" (.fs valores))
        "valor_maximo" (.f (pfMax valores))) "valor_minimo" (.f (pfMin valores)))
        "promedio_valores" (.f (pfDivNat (pfSum valores) valores.length))

/-- Air-e extraer_totales (lines 413-450) over the double model: the
unguarded monthly-total conversion, the hard-coded general total, then
the guarded statistics. -/
def aire_totales_double (t : String) : Except Err (List (String × ValF)) := do
  let d : List (String × ValF) := []
  let d ←
    match search1 true airePatTotalPagarMes t with
    | some m => do
        let v ← pyFloatFE (sreplace (sreplace m "," "") "." "")
        pure (dinsert d "total_pagar_mes" (.f v))
    | none => pure d
  let d ←
    match (findall1 false airePatTotalGeneral t).head? with
    | some m => do
        let v ← pyFloatFE (sreplace m "." "")
        pure (dinsert d "total_general" (.f v))
    | none => pure d
  pure (aireTotalsStatsF d (findall1 false airePatMoney t))

/-
  ===========================================================================
  Shared lemmas about the dict model.
  ===========================================================================
-/

theorem dlookup_dinsert_self {α : Type} (d : List (String × α)) (k : String) (v : α) :
    dlookup k (dinsert d k v) = some v := by
  induction d with
  | nil => simp [dinsert, dlookup]
  | cons p rest ih =>
      obtain ⟨k2, w⟩ := p
      by_cases h : k2 = k
      · simp [dinsert, dlookup, h]
      · simp [dinsert, dlookup, h, ih]

theorem dlookup_dinsert_ne {α : Type} (d : List (String × α)) (k k2 : String) (v : α)
    (h : k2 ≠ k) : dlookup k (dinsert d k2 v) = dlookup k d := by
  induction d with
  | nil => simp [dinsert, dlookup, h]
  | cons p rest ih =>
      obtain ⟨k3, w⟩ := p
      by_cases h3 : k3 = k2
      · subst h3
        simp [dinsert, dlookup, h]
      · by_cases h4 : k3 = k
        · simp [dinsert, dlookup, h3, h4, Ne.symm h]
        · simp [dinsert, dlookup, h3, h4, ih]

theorem dlookup_addS_ne (d : List (String × Val)) (k k2 : String) (o : Option String)
    (h : k2 ≠ k) : dlookup k (addS d k2 o) = dlookup k d := by
  cases o with
  | none => rfl
  | some v => exact dlookup_dinsert_ne d k k2 (.s v) h

theorem pyFloatE_ok (s : String) (q : ℚ) (h : pyFloat s = some q) : pyFloatE s = .ok q := by
  unfold pyFloatE
  rw [h]

/-
  Shared lemmas about the aggregation helpers.
-/

theorem foldl_max_left (x : ℚ) (l : List ℚ) : x ≤ l.foldl max x := by
  induction l generalizing x with
  | nil => simp
  | cons y ys ih => exact le_trans (le_max_left x y) (ih (max x y))

theorem foldl_max_le_of_mem (x : ℚ) (l : List ℚ) :
    ∀ y ∈ l, y ≤ l.foldl max x := by
  induction l generalizing x with
  | nil => simp
  | cons z zs ih =>
      intro y hy
      rcases List.mem_cons.mp hy with h | h
      · subst h
        exact le_trans (le_max_right x y) (foldl_max_left _ zs)
      · exact ih (max x z) y h

theorem foldl_max_mem (x : ℚ) (l : List ℚ) : l.foldl max x ∈ x :: l := by
  induction l generalizing x with
  | nil => simp
  | cons y ys ih =>
      show List.foldl max (max x y) ys ∈ x :: y :: ys
      have h := ih (max x y)
      rcases List.mem_cons.mp h with h2 | h2
      · rcases max_choice x y with h3 | h3
        · exact List.mem_cons.mpr (Or.inl (h2.trans h3))
        · exact List.mem_cons.mpr (Or.inr (List.mem_cons.mpr (Or.inl (h2.trans h3))))
      · exact List.mem_cons.mpr (Or.inr (List.mem_cons.mpr (Or.inr h2)))

theorem foldl_min_left (x : ℚ) (l : List ℚ) : l.foldl min x ≤ x := by
  induction l generalizing x with
  | nil => simp
  | cons y ys ih => exact le_trans (ih (min x y)) (min_le_left x y)

theorem foldl_min_le_of_mem (x : ℚ) (l : List ℚ) :
    ∀ y ∈ l, l.foldl min x ≤ y := by
  induction l generalizing x with
  | nil => simp
  | cons z zs ih =>
      intro y hy
      rcases List.mem_cons.mp hy with h | h
      · subst h
        exact le_trans (foldl_min_left _ zs) (min_le_right x y)
      · exact ih (min x z) y h

theorem foldl_min_mem (x : ℚ) (l : List ℚ) : l.foldl min x ∈ x :: l := by
  induction l generalizing x with
  | nil => simp
  | cons y ys ih =>
      show List.foldl min (min x y) ys ∈ x :: y :: ys
      have h := ih (min x y)
      rcases List.mem_cons.mp h with h2 | h2
      · rcases min_choice x y with h3 | h3
        · exact List.mem_cons.mpr (Or.inl (h2.trans h3))
        · exact List.mem_cons.mpr (Or.inr (List.mem_cons.mpr (Or.inl (h2.trans h3))))
      · exact List.mem_cons.mpr (Or.inr (List.mem_cons.mpr (Or.inr h2)))

theorem qmax_mem (l : List ℚ) (h : l ≠ []) : qmax l ∈ l := by
  cases l with
  | nil => exact absurd rfl h
  | cons x rest => exact foldl_max_mem x rest

theorem qmin_mem (l : List ℚ) (h : l ≠ []) : qmin l ∈ l := by
  cases l with
  | nil => exact absurd rfl h
  | cons x rest => exact foldl_min_mem x rest

theorem le_qmax_of_mem (l : List ℚ) (y : ℚ) (hy : y ∈ l) : y ≤ qmax l := by
  cases l with
  | nil => simp at hy
  | cons x rest =>
      rcases List.mem_cons.mp hy with h | h
      · subst h
        exact foldl_max_left y rest
      · exact foldl_max_le_of_mem x rest y h

theorem qmin_le_of_mem (l : List ℚ) (y : ℚ) (hy : y ∈ l) : qmin l ≤ y := by
  cases l with
  | nil => simp at hy
  | cons x rest =>
      rcases List.mem_cons.mp hy with h | h
      · subst h
        exact foldl_min_left y rest
      · exact foldl_min_le_of_mem x rest y h

theorem foldl_add_shift (a : ℚ) (l : List ℚ) :
    l.foldl (· + ·) a = a + l.foldl (· + ·) 0 := by
  induction l generalizing a with
  | nil => simp
  | cons x xs ih =>
      show xs.foldl (· + ·) (a + x) = a + xs.foldl (· + ·) (0 + x)
      rw [ih (a + x), ih (0 + x)]
      ring

theorem qsum_cons (x : ℚ) (l : List ℚ) : qsum (x :: l) = x + qsum l := by
  show l.foldl (· + ·) (0 + x) = x + qsum l
  rw [foldl_add_shift (0 + x) l]
  show 0 + x + qsum l = x + qsum l
  ring

theorem qsum_le_len_mul (l : List ℚ) (b : ℚ) (h : ∀ y ∈ l, y ≤ b) :
    qsum l ≤ (l.length : ℚ) * b := by
  induction l with
  | nil => simp [qsum]
  | cons x xs ih =>
      rw [qsum_cons]
      have h1 : x ≤ b := h x (List.mem_cons_self x xs)
      have h2 : qsum xs ≤ (xs.length : ℚ) * b := ih fun y hy => h y (List.mem_cons_of_mem x hy)
      have : (List.length (x :: xs) : ℚ) = (xs.length : ℚ) + 1 := by
        simp
      rw [this]
      nlinarith

theorem len_mul_le_qsum (l : List ℚ) (b : ℚ) (h : ∀ y ∈ l, b ≤ y) :
    (l.length : ℚ) * b ≤ qsum l := by
  induction l with
  | nil => simp [qsum]
  | cons x xs ih =>
      rw [qsum_cons]
      have h1 : b ≤ x := h x (List.mem_cons_self x xs)
      have h2 : (xs.length : ℚ) * b ≤ qsum xs := ih fun y hy => h y (List.mem_cons_of_mem x hy)
      have : (List.length (x :: xs) : ℚ) = (xs.length : ℚ) + 1 := by
        simp
      rw [this]
      nlinarith

theorem qmean_le_qmax (l : List ℚ) (h : l ≠ []) : qmean l ≤ qmax l := by
  have hlen : 0 < (l.length : ℚ) := by
    exact_mod_cast List.length_pos.mpr h
  rw [qmean, div_le_iff₀ hlen]
  have := qsum_le_len_mul l (qmax l) (fun y hy => le_qmax_of_mem l y hy)
  linarith [this]

theorem qmin_le_qmean (l : List ℚ) (h : l ≠ []) : qmin l ≤ qmean l := by
  have hlen : 0 < (l.length : ℚ) := by
    exact_mod_cast List.length_pos.mpr h
  rw [qmean, le_div_iff₀ hlen]
  have := len_mul_le_qsum l (qmin l) (fun y hy => qmin_le_of_mem l y hy)
  linarith [this]

/-
  ===========================================================================
  Concrete values used by several claims.
  ===========================================================================
-/

/-- The tier-c fixture of the ESSA family, as the line items extraction
produces from the literal rows when none of the specific searches match. -/
def essaFixtureItems : List EssaConcepto :=
  [⟨1, "672", "CPROG", "Peso", 79059512, 1, 0, 0, 79059512⟩,
   ⟨2, "384", "PEAJE ACTIVA", "KWH", (115377 : ℚ) / 10000, 3638002, 0, 0, 41974020⟩,
   ⟨3, "636", "PEAJE INDUCTIVA FA", "K5", 7342282, 1, 0, 0, 7342282⟩,
   ⟨4, "499", "ADD CENTRO", "Peso", 391250, 1, 0, 0, 391250⟩]

/-- The ESSA extraction result on the empty string. -/
def essaEmptyResult : List (String × Sect EssaConcepto) :=
  [("informacion_general", .fields []), ("datos_comercializador", .fields []),
   ("datos_cliente", .fields []), ("periodo_facturacion", .fields []),
   ("conceptos_facturados", .items essaFixtureItems), ("informacion_pago", .fields []),
   ("datos_tecnicos", .fields []), ("informacion_recaudo", .fields []),
   ("totales", .fields []), ("codigos_barras", .fields [])]

/-- The air-e extraction result on the empty string. -/
def aireEmptyResult : List (String × Sect AireConcepto) :=
  [("informacion_general", .fields []), ("datos_cliente", .fields []),
   ("datos_operador", .fields []), ("periodo_facturacion", .fields []),
   ("conceptos_facturados", .items aireConceptosFijos), ("informacion_pago", .fields []),
   ("datos_tecnicos", .fields []), ("totales", .fields []), ("codigos_barras", .fields [])]

/-
  ===========================================================================
  Claim theorems.
  ===========================================================================
-/

set_option maxRecDepth 10000

/-- C1, counterexample: on the empty string the ESSA extraction completes,
but the billed-line-items section is neither empty nor absent: it holds the
four-row tier-c literal fixture.  This refutes the claim that extraction on
the empty string returns a result in which every section is empty or
absent. -/
theorem extract_empty_has_nonempty_section :
    (essa_extraer_todos_los_datos "").map (fun r => dlookup "conceptos_facturados" r) =
      .ok (some (.items essaFixtureItems)) ∧ essaFixtureItems ≠ [] :=
  ⟨by decide, by decide⟩

/-- C1 (amended): extraction on the empty string never raises; it returns
the full section list with every scalar section mapped to the empty dict,
and the one nonempty section is conceptos_facturados, holding the tier-c
literal fixture, in both invoice families. -/
theorem extract_empty_fixture_only :
    essa_extraer_todos_los_datos "" = .ok essaEmptyResult ∧
    aire_extraer_todos_los_datos "" = .ok aireEmptyResult :=
  ⟨by decide, by decide⟩

/-- C2, counterexample: on the text "TOTAL A PAGAR ," the ESSA total-to-pay
rule matches with the capture ",", the unguarded float() receives the empty
string after comma stripping, and the whole extraction aborts with that
conversion error instead of degrading to a missing field. -/
theorem extract_malformed_capture_raises :
    essa_extraer_todos_los_datos "TOTAL A PAGAR ," = .error (.conv "") := by
  decide

/-- C2 (amended): per-rule match failures degrade to key absence, but a
numeric post-processing failure at a conversion site that is not locally
guarded aborts the whole extraction; the only abort channels are the
numeric conversions inside the four fallible sections of each family, so
whenever each of those sections completes, the full extraction returns a
best-effort aggregate result. -/
theorem extract_ok_of_sections_ok : ∀ t : String,
    ((∃ a, essa_informacion_general t = .ok a) →
     (∃ b, essa_conceptos_facturados t = .ok b) →
     (∃ c, essa_informacion_pago t = .ok c) →
     (∃ d, essa_totales t = .ok d) →
     ∃ r, essa_extraer_todos_los_datos t = .ok r) ∧
    ((∃ a, aire_informacion_general t = .ok a) →
     (∃ b, aire_conceptos_facturados t = .ok b) →
     (∃ c, aire_informacion_pago t = .ok c) →
     (∃ d, aire_totales t = .ok d) →
     ∃ r, aire_extraer_todos_los_datos t = .ok r) := by
  intro t
  constructor
  · rintro ⟨a, ha⟩ ⟨b, hb⟩ ⟨c, hc⟩ ⟨d, hd⟩
    refine ⟨[("informacion_general", .fields a),
      ("datos_comercializador", .fields (essa_datos_comercializador t)),
      ("datos_cliente", .fields (essa_datos_cliente t)),
      ("periodo_facturacion", .fields (essa_periodo_facturacion t)),
      ("conceptos_facturados", .items b), ("informacion_pago", .fields c),
      ("datos_tecnicos", .fields (essa_datos_tecnicos t)),
      ("informacion_recaudo", .fields (essa_informacion_recaudo t)),
      ("totales", .fields d),
      ("codigos_barras", .fields (essa_codigos_barras t))], ?_⟩
    unfold essa_extraer_todos_los_datos
    rw [ha, hb, hc, hd]
    rfl
  · rintro ⟨a, ha⟩ ⟨b, hb⟩ ⟨c, hc⟩ ⟨d, hd⟩
    refine ⟨[("informacion_general", .fields a),
      ("datos_cliente", .fields (aire_datos_cliente t)),
      ("datos_operador", .fields (aire_datos_operador t)),
      ("periodo_facturacion", .fields (aire_periodo_facturacion t)),
      ("conceptos_facturados", .items b), ("informacion_pago", .fields c),
      ("datos_tecnicos", .fields (aire_datos_tecnicos t)), ("totales", .fields d),
      ("codigos_barras", .fields (aire_codigos_barras t))], ?_⟩
    unfold aire_extraer_todos_los_datos
    rw [ha, hb, hc, hd]
    rfl

/-- C2 witness: on the empty string each fallible section completes, and
the amended theorem yields a completed extraction for both families. -/
theorem extract_ok_of_sections_ok_witness :
    (∃ r, essa_extraer_todos_los_datos "" = .ok r) ∧
    (∃ r, aire_extraer_todos_los_datos "" = .ok r) :=
  ⟨(extract_ok_of_sections_ok "").1 ⟨[], by decide⟩ ⟨essaFixtureItems, by decide⟩
      ⟨[], by decide⟩ ⟨[], by decide⟩,
   (extract_ok_of_sections_ok "").2 ⟨[], by decide⟩ ⟨aireConceptosFijos, by decide⟩
      ⟨[], by decide⟩ ⟨[], by decide⟩⟩

/-- C5: on the synthetic 9-field line the ESSA tabular parser yields
exactly one line item with numero 1, codigo 672, valor_unidad 79059512,
cantidad 1, iva 0, saldo 0 and valor_mes 79059512 (the bounded-region tier
finds no table here and the whole-text tier parses the line). -/
theorem conceptos_synthetic_line :
    essa_conceptos_facturados "1 672 CPROG Peso 79059512.0000 1 0 0 79059512" =
      .ok [⟨1, "672", "CPROG", "Peso", 79059512, 1, 0, 0, 79059512⟩] := by
  decide

/-- C7: the driver refuses to run the extractor on empty input text,
signalling the fatal condition with an outcome distinct from every
completed extraction (in particular distinct from a result with empty
sections), in both families. -/
theorem main_refuses_empty_text : ∀ t : String,
    (t = "" → essa_main t = .fatalNoText ∧ aire_main t = .fatalNoText) ∧
    (∀ r, essa_main t = .extracted r → t ≠ "") ∧
    (∀ r, aire_main t = .extracted r → t ≠ "") := by
  intro t
  refine ⟨fun h => ?_, fun r h he => ?_, fun r h he => ?_⟩
  · subst h
    exact ⟨by simp [essa_main], by simp [aire_main]⟩
  · subst he
    simp [essa_main] at h
  · subst he
    simp [aire_main] at h

/-- C7 witness: on the empty string both drivers stop with the fatal
outcome, while a nonempty input that extracts cleanly is reported as a
completed extraction. -/
theorem main_refuses_empty_text_witness :
    (essa_main "" = .fatalNoText ∧ aire_main "" = .fatalNoText) ∧ "x" ≠ "" :=
  ⟨(main_refuses_empty_text "").1 rfl,
   (main_refuses_empty_text "x").2.1 essaEmptyResult (by decide)⟩

/-- C3: in both families, whenever the bounded-region table scan (tier a)
yields at least one line item, the billed-line-items extraction returns
exactly the tier-a result: the whole-text scan (tier b) and the literal
fixture (tier c) do not run and do not alter the returned list. -/
theorem conceptos_tierA_wins : ∀ t : String,
    (∀ l, essa_tierA t = .ok l → l ≠ [] → essa_conceptos_facturados t = .ok l) ∧
    (∀ l, aire_tierA t = .ok l → l ≠ [] → aire_conceptos_facturados t = .ok l) := by
  intro t
  have hE : ∀ {α : Type} (l : List α), l ≠ [] → l.isEmpty = false := by
    intro α l hne
    cases l with
    | nil => exact absurd rfl hne
    | cons x xs => rfl
  constructor
  · intro l h hne
    unfold essa_conceptos_facturados
    rw [h]
    show (if l.isEmpty = true then _ else pure l : Except Err (List EssaConcepto)) = .ok l
    rw [hE l hne]
    rfl
  · intro l h hne
    unfold aire_conceptos_facturados
    rw [h]
    show (if l.isEmpty = true then _ else pure l : Except Err (List AireConcepto)) = .ok l
    rw [hE l hne]
    rfl

/-- The ESSA tier-a witness text: a literal column-header line, one strict
9-field row, and a terminating marker. -/
def essaTablaText : String :=
  "Nro. CÓDIGO CONCEPTO UNIDAD VR\\UNIDAD CANTIDAD IVA SALDO VALOR MES\n1 672 CPROG Peso 5 2 0 0 7\nTOTAL A PAGAR"

/-- The air-e tier-a witness text: the charge-detail header and one
specific concept. -/
def aireDetalleText : String :=
  "Detalle del cobro Conceptos facturados Valores Peaje No Regulado $100"

/-- C3 witness: concrete texts on which tier a is nonempty, and the billed
items are exactly the tier-a rows. -/
theorem conceptos_tierA_wins_witness :
    essa_conceptos_facturados essaTablaText = .ok [⟨1, "672", "CPROG", "Peso", 5, 2, 0, 0, 7⟩] ∧
    aire_conceptos_facturados aireDetalleText = .ok [⟨"Peaje No Regulado", 1⟩] :=
  ⟨(conceptos_tierA_wins essaTablaText).1 _ (by decide) (by decide),
   (conceptos_tierA_wins aireDetalleText).2 _ (by decide) (by decide)⟩

/-- Skipping the eight customer fields that follow the name field leaves
the name lookup unchanged. -/
theorem dlookup_nombre_chain (d0 : List (String × Val)) (v : Val)
    (hd : dlookup "nombre" d0 = some v) (o1 o2 o3 o4 o5 o6 o7 o8 : Option String) :
    dlookup "nombre" (addS (addS (addS (addS (addS (addS (addS (addS d0 "nit" o1)
      "direccion" o2) "direccion_planta" o3) "municipio" o4) "departamento" o5)
      "contrato" o6) "uso_peaje_nivel" o7) "nivel_tension" o8) = some v := by
  rw [dlookup_addS_ne _ _ _ _ (by decide), dlookup_addS_ne _ _ _ _ (by decide),
    dlookup_addS_ne _ _ _ _ (by decide), dlookup_addS_ne _ _ _ _ (by decide),
    dlookup_addS_ne _ _ _ _ (by decide), dlookup_addS_ne _ _ _ _ (by decide),
    dlookup_addS_ne _ _ _ _ (by decide), dlookup_addS_ne _ _ _ _ (by decide), hd]

/-- C8: when both the primary and the alternate pattern of a field could
bind a value, the primary pattern's value is the one in the result: the
ESSA account/NIU code, and the air-e customer name. -/
theorem primary_pattern_wins : ∀ t : String,
    (∀ v, search1 true essaPatNiu t = some v →
      essa_datos_cliente t = [("codigo_cuenta_niu", .s v)]) ∧
    (∀ m, search1 false airePatCliente t = some m →
      dlookup "nombre" (aire_datos_cliente t) = some (.s (pstrip m))) := by
  intro t
  constructor
  · intro v h
    unfold essa_datos_cliente
    rw [h]
    rfl
  · intro m h
    unfold aire_datos_cliente
    rw [h]
    exact dlookup_nombre_chain _ _ (by rfl) _ _ _ _ _ _ _ _

/-- The C8 witness text: it matches the primary and alternate name rules
of the air-e family and the primary and alternate account rules of the
ESSA family at distinct values. -/
def bothPatternsText : String :=
  "Cliente: FOO\nGENERADORA Y COMERCIALIZADORA DE ENERGIA DEL CARIBE\nCódigo Cuenta-NIU 123 CUENTA-NIU 456"

/-- C8 witness: on the text matching both rule variants, the primary
captures (the NIU after the Código label; the name after Cliente:) win. -/
theorem primary_pattern_wins_witness :
    essa_datos_cliente bothPatternsText = [("codigo_cuenta_niu", .s "123")] ∧
    dlookup "nombre" (aire_datos_cliente bothPatternsText) = some (.s (pstrip "FOO")) :=
  ⟨(primary_pattern_wins bothPatternsText).1 "123" (by decide),
   (primary_pattern_wins bothPatternsText).2 "FOO" (by decide)⟩

/-- C9: the extracted total-to-pay field holds the value parsed from the
last occurrence of the TOTAL A PAGAR pattern in the text, in both
families. -/
theorem total_pagar_last_match : ∀ t : String,
    (∀ m q, (findall1 true essaPatTotal t).getLast? = some m →
      pyFloat (sreplace m "," "") = some q →
      ∃ d, essa_informacion_general t = .ok d ∧ dlookup "total_pagar" d = some (.q q)) ∧
    (∀ m q, (findall1 true airePatTotal t).getLast? = some m →
      pyFloat (sreplace (sreplace m "," "") "." "") = some q →
      ∃ d, aire_informacion_general t = .ok d ∧ dlookup "total_pagar" d = some (.q q)) := by
  intro t
  constructor
  · intro m q hLast hq
    unfold essa_informacion_general
    rw [hLast]
    simp only [essaTotalPagarStep, pyFloatE_ok _ _ hq]
    exact ⟨_, rfl, dlookup_dinsert_self _ _ _⟩
  · intro m q hLast hq
    unfold aire_informacion_general
    rw [hLast]
    simp only [aireTotalPagarStep, pyFloatE_ok _ _ hq]
    refine ⟨_, rfl, ?_⟩
    rw [dlookup_addS_ne _ _ _ _ (by decide), dlookup_addS_ne _ _ _ _ (by decide)]
    exact dlookup_dinsert_self _ _ _

/-- The C9 witness text: two occurrences of the total-to-pay pattern with
different amounts. -/
def twoTotalsText : String :=
  "TOTAL A PAGAR $1,000 TOTAL A PAGAR $2,000"

/-- C9 witness: with totals 1,000 and then 2,000 in the text, the
extracted total is 2000, the last occurrence, in both families. -/
theorem total_pagar_last_match_witness :
    (∃ d, essa_informacion_general twoTotalsText = .ok d ∧
      dlookup "total_pagar" d = some (.q 2000)) ∧
    (∃ d, aire_informacion_general twoTotalsText = .ok d ∧
      dlookup "total_pagar" d = some (.q 2000)) :=
  ⟨(total_pagar_last_match twoTotalsText).1 "2,000" 2000 (by decide) (by decide),
   (total_pagar_last_match twoTotalsText).2 "2,000" 2000 (by decide) (by decide)⟩

/-
  Inversion lemmas for the Totals assemblers, shared by the remaining
  claims.
-/

theorem mapE_ok_nonempty {α β : Type} (f : α → Except Err β) (x : α) (ms : List α)
    (vs : List β) (h : mapE f (x :: ms) = .ok vs) : vs ≠ [] := by
  unfold mapE at h
  simp only [bind, Except.bind, pure, Except.pure] at h
  split at h
  · exact Except.noConfusion h
  · split at h
    · exact Except.noConfusion h
    · intro hfalse
      rw [hfalse] at h
      exact List.noConfusion (Except.ok.inj h)

/-- The result of the ESSA totals assembler is either empty (no monetary
token) or the four statistics entries over a nonempty parsed list. -/
theorem essaTotalsFrom_shape (ms : List String) (d : List (String × Val))
    (h : essaTotalsFrom ms = .ok d) :
    d = [] ∨ ∃ vs, vs ≠ [] ∧
      d = [("valores_encontrados", .qs vs), ("valor_maximo", .q (qmax vs)),
           ("valor_minimo", .q (qmin vs)), ("promedio_valores", .q (qmean vs))] := by
  unfold essaTotalsFrom at h
  split at h
  · exact Or.inl (Except.ok.inj h).symm
  · right
    rename_i hms
    simp only [bind, Except.bind, pure, Except.pure] at h
    split at h
    · exact Except.noConfusion h
    · rename_i vs hvs
      refine ⟨vs, ?_, ?_⟩
      · cases ms with
        | nil => exact (hms rfl).elim
        | cons x rest => exact mapE_ok_nonempty _ x rest vs hvs
      · exact (Except.ok.inj h).symm

/-- Inversion of the air-e totals extractor: the result is the statistics
step applied to a base dict that contains none of the statistics keys. -/
theorem aire_totales_shape (t : String) (d : List (String × Val))
    (h : aire_totales t = .ok d) :
    ∃ b, d = aireTotalsStats b (findall1 false airePatMoney t) ∧
      dlookup "valor_maximo" b = none ∧ dlookup "valor_minimo" b = none ∧
      dlookup "promedio_valores" b = none ∧ dlookup "valores_encontrados" b = none := by
  unfold aire_totales at h
  simp only [bind, Except.bind, pure, Except.pure] at h
  repeat' split at h
  all_goals try exact Except.noConfusion h
  all_goals refine ⟨_, (Except.ok.inj h).symm, ?_, ?_, ?_, ?_⟩
  all_goals simp [dinsert, dlookup]

/-- The ESSA section keys, in source order. -/
def essaSectionKeys : List String :=
  ["informacion_general", "datos_comercializador", "datos_cliente", "periodo_facturacion",
   "conceptos_facturados", "informacion_pago", "datos_tecnicos", "informacion_recaudo",
   "totales", "codigos_barras"]

/-- The air-e section keys, in source order. -/
def aireSectionKeys : List String :=
  ["informacion_general", "datos_cliente", "datos_operador", "periodo_facturacion",
   "conceptos_facturados", "informacion_pago", "datos_tecnicos", "totales", "codigos_barras"]

/-- C4, counterexample: on the empty string the ESSA Totals pass finds
zero monetary-shaped tokens and yields no fields, yet the returned
AggregateResult still carries the key totales (bound to an empty mapping).
This refutes the claim that a section yielding no fields does not appear
as a key. -/
theorem empty_section_still_keyed :
    findall1 false essaPatMoney "" = [] ∧
    (essa_extraer_todos_los_datos "").map (fun r => dlookup "totales" r) =
      .ok (some (.fields [])) :=
  ⟨by decide, by decide⟩

/-- C4 (amended): every section key always appears in the returned
AggregateResult, a section that yielded no fields being bound to an empty
mapping; and when zero monetary-shaped tokens are found, no Totals
statistics are computed: the ESSA totales mapping is empty, and the air-e
totales mapping carries no valor_maximo, valor_minimo or promedio_valores
entry. -/
theorem sections_always_keyed : ∀ t : String,
    (∀ r, essa_extraer_todos_los_datos t = .ok r → r.map Prod.fst = essaSectionKeys) ∧
    (∀ r, aire_extraer_todos_los_datos t = .ok r → r.map Prod.fst = aireSectionKeys) ∧
    (findall1 false essaPatMoney t = [] → essa_totales t = .ok []) ∧
    (∀ d, aire_totales t = .ok d → findall1 false airePatMoney t = [] →
      dlookup "valor_maximo" d = none ∧ dlookup "valor_minimo" d = none ∧
      dlookup "promedio_valores" d = none) := by
  intro t
  refine ⟨?_, ?_, ?_, ?_⟩
  · intro r h
    simp only [essa_extraer_todos_los_datos, bind, Except.bind, pure, Except.pure] at h
    repeat' split at h
    all_goals try exact Except.noConfusion h
    rw [← Except.ok.inj h]
    rfl
  · intro r h
    simp only [aire_extraer_todos_los_datos, bind, Except.bind, pure, Except.pure] at h
    repeat' split at h
    all_goals try exact Except.noConfusion h
    rw [← Except.ok.inj h]
    rfl
  · intro h
    unfold essa_totales
    rw [h]
    rfl
  · intro d hd hm
    obtain ⟨b, hdd, h1, h2, h3, _⟩ := aire_totales_shape t d hd
    rw [hm] at hdd
    subst hdd
    exact ⟨h1, h2, h3⟩

/-- C4 witness: on the empty string the key lists are as stated, the ESSA
totales mapping is empty, and the air-e totales mapping has no statistics
entries. -/
theorem sections_always_keyed_witness :
    essaEmptyResult.map Prod.fst = essaSectionKeys ∧
    aireEmptyResult.map Prod.fst = aireSectionKeys ∧
    essa_totales "" = .ok [] ∧
    (dlookup "valor_maximo" ([] : List (String × Val)) = none ∧
     dlookup "valor_minimo" ([] : List (String × Val)) = none ∧
     dlookup "promedio_valores" ([] : List (String × Val)) = none) :=
  ⟨(sections_always_keyed "").1 essaEmptyResult (by decide),
   (sections_always_keyed "").2.1 aireEmptyResult (by decide),
   (sections_always_keyed "").2.2.1 (by decide),
   (sections_always_keyed "").2.2.2 [] (by decide) (by decide)⟩

/-- The Totals statistics over exactly the tokens 1234567 and 9999999. -/
def essaTotStats : List (String × Val) :=
  [("valores_encontrados", .qs [1234567, 9999999]), ("valor_maximo", .q 9999999),
   ("valor_minimo", .q 1234567), ("promedio_valores", .q 5617283)]

/-- The C6 counterexample text: its only monetary-shaped tokens are
1234567 and 9999999, but it also contains a Total a pagar mes label
followed by a separator-only amount. -/
def c6CrashText : String := "Total a pagar mes , 1234567 9999999"

/-- C6, counterexample: this text's only 7-plus-digit tokens are 1234567
and 9999999, yet the air-e Totals extraction raises (the unguarded
monthly-total conversion receives an empty string after separator
stripping), so the Totals section reports nothing at all on it. -/
theorem aire_totales_crash_despite_tokens :
    findall1 false airePatMoney c6CrashText = ["1234567", "9999999"] ∧
    aire_totales c6CrashText = .error (.conv "") :=
  ⟨by decide, by decide⟩

/-- C6 (amended): on any text whose monetary-token scan yields exactly
1234567 and 9999999, the ESSA Totals section is exactly the stated
statistics, and the air-e Totals section, whenever its extraction
completes, carries the stated maximum, minimum and mean; a 6-digit run
such as 123456 is not matched and contributes nothing in either family. -/
theorem totales_two_tokens : ∀ t : String,
    (findall1 false essaPatMoney t = ["1234567", "9999999"] →
      essa_totales t = .ok essaTotStats) ∧
    (∀ d, aire_totales t = .ok d → findall1 false airePatMoney t = ["1234567", "9999999"] →
      dlookup "valor_maximo" d = some (.q 9999999) ∧
      dlookup "valor_minimo" d = some (.q 1234567) ∧
      dlookup "promedio_valores" d = some (.q 5617283)) ∧
    (findall1 false essaPatMoney "123456" = [] ∧ essa_totales "123456" = .ok []) ∧
    (findall1 false airePatMoney "123456" = [] ∧ aire_totales "123456" = .ok []) := by
  intro t
  refine ⟨?_, ?_, ⟨by decide, by decide⟩, ⟨by decide, by decide⟩⟩
  · intro h
    unfold essa_totales
    rw [h]
    decide
  · intro d hd hm
    obtain ⟨b, hdd, _, _, _, _⟩ := aire_totales_shape t d hd
    rw [hm] at hdd
    have hstats : aireTotalsStats b ["1234567", "9999999"] =
        dinsert (dinsert (dinsert (dinsert b "valores_encontrados" (.qs [1234567, 9999999]))
          "valor_maximo" (.q 9999999)) "valor_minimo" (.q 1234567))
          "promedio_valores" (.q 5617283) := by
      rfl
    rw [hstats] at hdd
    subst hdd
    refine ⟨?_, ?_, ?_⟩
    · rw [dlookup_dinsert_ne _ _ _ _ (by decide), dlookup_dinsert_ne _ _ _ _ (by decide)]
      exact dlookup_dinsert_self _ _ _
    · rw [dlookup_dinsert_ne _ _ _ _ (by decide)]
      exact dlookup_dinsert_self _ _ _
    · exact dlookup_dinsert_self _ _ _

/-- C6 witness: on the two-token text itself both families produce exactly
the stated statistics. -/
theorem totales_two_tokens_witness :
    essa_totales "1234567 9999999" = .ok essaTotStats ∧
    (dlookup "valor_maximo" essaTotStats = some (.q 9999999) ∧
     dlookup "valor_minimo" essaTotStats = some (.q 1234567) ∧
     dlookup "promedio_valores" essaTotStats = some (.q 5617283)) :=
  ⟨(totales_two_tokens "1234567 9999999").1 (by decide),
   (totales_two_tokens "1234567 9999999").2.1 essaTotStats (by decide) (by decide)⟩

/-- Exact-rational idealisation of the Totals statistics: if floats were
unbounded exact rationals, then whenever the statistics are produced the
reported minimum and maximum would be elements of the list of found values
and would bound the reported mean, in both families.  This idealisation is
NOT faithful to CPython: double addition overflows, and the mean bound
fails on the real arithmetic (see the double model and the overflow
counterexample below). -/
theorem totales_stats_sound : ∀ t : String,
    (∀ d vs mx mn av, essa_totales t = .ok d →
      dlookup "valores_encontrados" d = some (.qs vs) →
      dlookup "valor_maximo" d = some (.q mx) →
      dlookup "valor_minimo" d = some (.q mn) →
      dlookup "promedio_valores" d = some (.q av) →
      mn ≤ av ∧ av ≤ mx ∧ mn ∈ vs ∧ mx ∈ vs) ∧
    (∀ d vs mx mn av, aire_totales t = .ok d →
      dlookup "valores_encontrados" d = some (.qs vs) →
      dlookup "valor_maximo" d = some (.q mx) →
      dlookup "valor_minimo" d = some (.q mn) →
      dlookup "promedio_valores" d = some (.q av) →
      mn ≤ av ∧ av ≤ mx ∧ mn ∈ vs ∧ mx ∈ vs) := by
  intro t
  constructor
  · intro d vs mx mn av hd hvs hmx hmn hav
    obtain he | ⟨vs2, hne, hdd⟩ := essaTotalsFrom_shape _ _ hd
    · rw [he] at hvs
      exact Option.noConfusion hvs
    · subst hdd
      simp [dlookup] at hvs hmx hmn hav
      subst hvs hmx hmn hav
      exact ⟨qmin_le_qmean vs2 hne, qmean_le_qmax vs2 hne, qmin_mem vs2 hne, qmax_mem vs2 hne⟩
  · intro d vs mx mn av hd hvs hmx hmn hav
    obtain ⟨b, hdd, hb1, hb2, hb3, hb4⟩ := aire_totales_shape t d hd
    subst hdd
    unfold aireTotalsStats at hvs hmx hmn hav
    by_cases hms : (findall1 false airePatMoney t).isEmpty
    · rw [if_pos hms] at hmx
      rw [hmx] at hb1
      exact Option.noConfusion hb1
    · rw [if_neg hms] at hvs hmx hmn hav
      by_cases hval : (aireValoresLoop (findall1 false airePatMoney t)).isEmpty
      · rw [if_pos hval] at hmx
        rw [hmx] at hb1
        exact Option.noConfusion hb1
      · rw [if_neg hval] at hvs hmx hmn hav
        have hne : aireValoresLoop (findall1 false airePatMoney t) ≠ [] := by
          intro hfalse
          rw [hfalse] at hval
          exact hval rfl
        rw [dlookup_dinsert_ne _ _ _ _ (by decide), dlookup_dinsert_ne _ _ _ _ (by decide),
          dlookup_dinsert_ne _ _ _ _ (by decide), dlookup_dinsert_self] at hvs
        rw [dlookup_dinsert_ne _ _ _ _ (by decide), dlookup_dinsert_ne _ _ _ _ (by decide),
          dlookup_dinsert_self] at hmx
        rw [dlookup_dinsert_ne _ _ _ _ (by decide), dlookup_dinsert_self] at hmn
        rw [dlookup_dinsert_self] at hav
        have hvs2 := Val.qs.inj (Option.some.inj hvs)
        have hmx2 := Val.q.inj (Option.some.inj hmx)
        have hmn2 := Val.q.inj (Option.some.inj hmn)
        have hav2 := Val.q.inj (Option.some.inj hav)
        subst hvs2 hmx2 hmn2 hav2
        exact ⟨qmin_le_qmean _ hne, qmean_le_qmax _ hne, qmin_mem _ hne, qmax_mem _ hne⟩

/-- Instance of the exact-rational idealisation: on the two-token text the
ESSA statistics satisfy the bounds and memberships. -/
theorem totales_stats_sound_witness :
    (1234567 : ℚ) ≤ 5617283 ∧ (5617283 : ℚ) ≤ 9999999 ∧
    (1234567 : ℚ) ∈ [(1234567 : ℚ), 9999999] ∧ (9999999 : ℚ) ∈ [(1234567 : ℚ), 9999999] :=
  (totales_stats_sound "1234567 9999999").1 essaTotStats [1234567, 9999999] 9999999 1234567
    5617283 (by decide) (by decide) (by decide) (by decide) (by decide)

/-
  ===========================================================================
  The Totals statistics over the real double arithmetic.

  The idealisation above is where it ends: CPython floats are binary64
  doubles, and sum(valores) overflows to inf on large tokens while
  max(valores) stays finite, so promedio_valores ≤ valor_maximo is false
  of the real program.  The double model (PyF and the *_double extractors
  above) is faithful to that arithmetic; here are a concrete refutation
  and the part of the statistic relations that truly survives it.
  ===========================================================================
-/

/-- A monetary token denoting about 1.7e308: 17 followed by 307 zeros.
It is individually below the double range limit, but two of them sum
past it. -/
def overflowToken : String := "17" ++ String.mk (List.replicate 307 '0')

/-- A text whose monetary-token scan finds exactly two overflow tokens,
in both families. -/
def overflowText : String := overflowToken ++ " " ++ overflowToken

/-- The double nearest 1.7e308, as CPython parses the overflow token:
8517715530038134 * 2 ^ 971 (cross-checked against
float(overflowToken).as_integer_ratio()). -/
def bigDouble : ℚ := mkRat ((8517715530038134 * 2 ^ 971 : Nat) : Int) 1

/-- The Totals dictionary both families report on overflowText: the
maximum and minimum are the finite double bigDouble, but the mean is inf,
because the double sum bigDouble + bigDouble overflows. -/
def overflowStats : List (String × ValF) :=
  [("valores_encontrados", .fs [.finite bigDouble, .finite bigDouble]),
   ("valor_maximo", .f (.finite bigDouble)),
   ("valor_minimo", .f (.finite bigDouble)),
   ("promedio_valores", .f .inf)]

set_option maxRecDepth 40000

/-- C10, counterexample: on a text whose monetary tokens are two copies of
17 followed by 307 zeros — each individually parsed to the finite double
bigDouble — both families' Totals over the program's actual double
arithmetic report valor_maximo = bigDouble (finite) but
promedio_valores = inf, because sum() overflows; so
promedio_valores ≤ valor_maximo is false and the claimed mean bound does
not hold of the program. -/
theorem totales_double_overflow_counterexample :
    essa_totales_double overflowText = .ok overflowStats ∧
    aire_totales_double overflowText = .ok overflowStats ∧
    dlookup "promedio_valores" overflowStats = some (.f .inf) ∧
    dlookup "valor_maximo" overflowStats = some (.f (.finite bigDouble)) ∧
    pfLe .inf (.finite bigDouble) = false :=
  ⟨by decide, by decide, by decide, by decide, by decide⟩

/-
  What survives of C10 under the double arithmetic: the reported minimum
  and maximum are members of the found list and compare min ≤ max.  The
  supporting order theory of non-nan doubles follows.
-/

theorem roundPos_ne_nan (n d : Nat) : roundPos n d ≠ .nan := by
  intro h
  simp only [roundPos] at h
  repeat' split at h
  all_goals exact PyF.noConfusion h

theorem roundDouble_ne_nan (q : ℚ) : roundDouble q ≠ .nan := by
  unfold roundDouble
  split
  · exact fun h => PyF.noConfusion h
  · split
    · exact roundPos_ne_nan _ _
    · split
      · exact fun h => PyF.noConfusion h
      · exact fun h => PyF.noConfusion h
      · exact fun h => PyF.noConfusion h
      · rename_i hm
        exact (roundPos_ne_nan _ _ hm).elim

theorem pyFloatFE_ne_nan (s : String) (v : PyF) (h : pyFloatFE s = .ok v) :
    v ≠ .nan := by
  unfold pyFloatFE at h
  split at h
  · rw [← Except.ok.inj h]
    exact roundDouble_ne_nan _
  · exact Except.noConfusion h

/-- Values delivered by mapE all satisfy any property its function
guarantees of each output. -/
theorem mapE_forall {α β : Type} (f : α → Except Err β) (p : β → Prop)
    (hf : ∀ x y, f x = .ok y → p y) :
    ∀ ms vs, mapE f ms = .ok vs → ∀ v ∈ vs, p v := by
  intro ms
  induction ms with
  | nil =>
      intro vs h v hv
      rw [← Except.ok.inj h] at hv
      exact absurd hv (List.not_mem_nil v)
  | cons x rest ih =>
      intro vs h v hv
      unfold mapE at h
      simp only [bind, Except.bind, pure, Except.pure] at h
      split at h
      · exact Except.noConfusion h
      · rename_i y hy
        split at h
        · exact Except.noConfusion h
        · rename_i tl htl
          rw [← Except.ok.inj h] at hv
          rcases List.mem_cons.mp hv with h1 | h2
          · rw [h1]
            exact hf x y hy
          · exact ih tl htl v h2

theorem aireValoresLoopF_ne_nan (ms : List String) :
    ∀ v ∈ aireValoresLoopF ms, v ≠ .nan := by
  induction ms with
  | nil =>
      intro v hv
      exact absurd hv (List.not_mem_nil v)
  | cons m rest ih =>
      intro v hv
      unfold aireValoresLoopF at hv
      split at hv
      · rcases List.mem_cons.mp hv with h1 | h2
        · rw [h1]
          exact roundDouble_ne_nan _
        · exact ih v h2
      · exact ih v hv

theorem pfLe_refl (a : PyF) (h : a ≠ .nan) : pfLe a a = true := by
  cases a with
  | finite q => simp [pfLe]
  | inf => rfl
  | ninf => rfl
  | nan => exact (h rfl).elim

theorem pfLe_of_pfLt (a b : PyF) (h : pfLt a b = true) : pfLe a b = true := by
  cases a <;> cases b <;> simp_all [pfLt, pfLe]
  exact le_of_lt h

theorem pfLt_ne_nan_left (a b : PyF) (h : pfLt a b = true) : a ≠ .nan := by
  cases a <;> simp_all [pfLt]

theorem pfLe_of_not_lt (a b : PyF) (ha : a ≠ .nan) (hb : b ≠ .nan)
    (h : pfLt a b = false) : pfLe b a = true := by
  cases a <;> cases b <;> simp_all [pfLt, pfLe]

theorem pfLe_trans (a b c : PyF) (h1 : pfLe a b = true) (h2 : pfLe b c = true) :
    pfLe a c = true := by
  cases a <;> cases b <;> cases c <;> simp_all [pfLe]
  exact le_trans h1 h2

/-- The value chosen by a comparison fold is the seed or a list element. -/
theorem foldl_choose_mem (p : PyF → PyF → Bool) (l : List PyF) (x : PyF) :
    List.foldl (fun cur y => if p cur y then y else cur) x l ∈ x :: l := by
  induction l generalizing x with
  | nil => exact List.mem_singleton.mpr rfl
  | cons y ys ih =>
      rw [List.foldl_cons]
      rcases List.mem_cons.mp (ih (if p x y then y else x)) with h1 | h2
      · rw [h1]
        by_cases hp : p x y
        · rw [if_pos hp]
          exact List.mem_cons_of_mem _ (List.mem_cons_self _ _)
        · rw [if_neg hp]
          exact List.mem_cons_self _ _
      · exact List.mem_cons_of_mem _ (List.mem_cons_of_mem _ h2)

theorem pfMax_mem (l : List PyF) (h : l ≠ []) : pfMax l ∈ l := by
  cases l with
  | nil => exact (h rfl).elim
  | cons x r => exact foldl_choose_mem _ r x

theorem pfMin_mem (l : List PyF) (h : l ≠ []) : pfMin l ∈ l := by
  cases l with
  | nil => exact (h rfl).elim
  | cons x r => exact foldl_choose_mem _ r x

/-- The min fold's result is below its seed and below every list element
(over non-nan values). -/
theorem pfMinFold_le (l : List PyF) (x : PyF) (hx : x ≠ .nan)
    (hl : ∀ v ∈ l, v ≠ .nan) :
    pfLe (List.foldl (fun cur y => if pfLt y cur then y else cur) x l) x = true ∧
    ∀ v ∈ l, pfLe (List.foldl (fun cur y => if pfLt y cur then y else cur) x l) v = true := by
  induction l generalizing x with
  | nil => exact ⟨pfLe_refl x hx, fun v hv => absurd hv (List.not_mem_nil v)⟩
  | cons y ys ih =>
      have hy : y ≠ .nan := hl y (List.mem_cons_self _ _)
      have hys : ∀ v ∈ ys, v ≠ .nan := fun v hv => hl v (List.mem_cons_of_mem _ hv)
      rw [List.foldl_cons]
      by_cases hp : pfLt y x
      · rw [if_pos hp]
        obtain ⟨ha, hb⟩ := ih y hy hys
        refine ⟨pfLe_trans _ _ _ ha (pfLe_of_pfLt _ _ hp), ?_⟩
        intro v hv
        rcases List.mem_cons.mp hv with h1 | h2
        · rw [h1]
          exact ha
        · exact hb v h2
      · rw [if_neg hp]
        obtain ⟨ha, hb⟩ := ih x hx hys
        refine ⟨ha, ?_⟩
        intro v hv
        rcases List.mem_cons.mp hv with h1 | h2
        · rw [h1]
          exact pfLe_trans _ _ _ ha
            (pfLe_of_not_lt y x hy hx (Bool.eq_false_iff.mpr hp))
        · exact hb v h2

/-- Python min of a nonempty list of non-nan floats is below every
element. -/
theorem pfMin_le_of_mem (l : List PyF) (hl : ∀ v ∈ l, v ≠ .nan) (v : PyF)
    (hv : v ∈ l) : pfLe (pfMin l) v = true := by
  cases l with
  | nil => exact absurd hv (List.not_mem_nil v)
  | cons x r =>
      have hx : x ≠ .nan := hl x (List.mem_cons_self _ _)
      have hr : ∀ w ∈ r, w ≠ .nan := fun w hw => hl w (List.mem_cons_of_mem _ hw)
      obtain ⟨ha, hb⟩ := pfMinFold_le r x hx hr
      rcases List.mem_cons.mp hv with h1 | h2
      · rw [h1]
        exact ha
      · exact hb v h2

/-- The result of the double-model ESSA totals assembler is either empty
or the four statistics entries over a nonempty list of non-nan parsed
doubles. -/
theorem essaTotalsFromF_shape (ms : List String) (d : List (String × ValF))
    (h : essaTotalsFromF ms = .ok d) :
    d = [] ∨ ∃ vs, vs ≠ [] ∧ (∀ v ∈ vs, v ≠ PyF.nan) ∧
      d = [("valores_encontrados", .fs vs), ("valor_maximo", .f (pfMax vs)),
           ("valor_minimo", .f (pfMin vs)),
           ("promedio_valores", .f (pfDivNat (pfSum vs) vs.length))] := by
  unfold essaTotalsFromF at h
  split at h
  · exact Or.inl (Except.ok.inj h).symm
  · right
    rename_i hms
    simp only [bind, Except.bind, pure, Except.pure] at h
    split at h
    · exact Except.noConfusion h
    · rename_i vs hvs
      refine ⟨vs, ?_, ?_, ?_⟩
      · cases ms with
        | nil => exact (hms rfl).elim
        | cons x rest => exact mapE_ok_nonempty _ x rest vs hvs
      · exact mapE_forall _ _ (fun x y hy => pyFloatFE_ne_nan _ y hy) _ vs hvs
      · exact (Except.ok.inj h).symm

/-- Inversion of the double-model air-e totals extractor: the result is
the statistics step applied to a base dict containing no statistics
key. -/
theorem aire_totales_double_shape (t : String) (d : List (String × ValF))
    (h : aire_totales_double t = .ok d) :
    ∃ b, d = aireTotalsStatsF b (findall1 false airePatMoney t) ∧
      dlookup "valor_maximo" b = none ∧ dlookup "valor_minimo" b = none ∧
      dlookup "promedio_valores" b = none ∧ dlookup "valores_encontrados" b = none := by
  unfold aire_totales_double at h
  simp only [bind, Except.bind, pure, Except.pure] at h
  repeat' split at h
  all_goals try exact Except.noConfusion h
  all_goals refine ⟨_, (Except.ok.inj h).symm, ?_, ?_, ?_, ?_⟩
  all_goals simp [dinsert, dlookup]

/-- C10 (amended): whenever the Totals statistics are produced, over the
program's actual double arithmetic, the reported minimum and maximum are
elements of the list of found values and valor_minimo ≤ valor_maximo, in
both families; the claimed bound valor_minimo ≤ promedio_valores ≤
valor_maximo does not survive, since the double sum can overflow to
infinity while the maximum stays finite. -/
theorem totales_double_minmax_sound : ∀ t : String,
    (∀ d vs mx mn, essa_totales_double t = .ok d →
      dlookup "valores_encontrados" d = some (.fs vs) →
      dlookup "valor_maximo" d = some (.f mx) →
      dlookup "valor_minimo" d = some (.f mn) →
      mn ∈ vs ∧ mx ∈ vs ∧ pfLe mn mx = true) ∧
    (∀ d vs mx mn, aire_totales_double t = .ok d →
      dlookup "valores_encontrados" d = some (.fs vs) →
      dlookup "valor_maximo" d = some (.f mx) →
      dlookup "valor_minimo" d = some (.f mn) →
      mn ∈ vs ∧ mx ∈ vs ∧ pfLe mn mx = true) := by
  intro t
  constructor
  · intro d vs mx mn hd hvs hmx hmn
    obtain he | ⟨vs2, hne, hnn, hdd⟩ := essaTotalsFromF_shape _ _ hd
    · rw [he] at hvs
      exact Option.noConfusion hvs
    · subst hdd
      simp [dlookup] at hvs hmx hmn
      subst hvs hmx hmn
      exact ⟨pfMin_mem vs2 hne, pfMax_mem vs2 hne,
        pfMin_le_of_mem vs2 hnn _ (pfMax_mem vs2 hne)⟩
  · intro d vs mx mn hd hvs hmx hmn
    obtain ⟨b, hdd, hb1, hb2, hb3, hb4⟩ := aire_totales_double_shape t d hd
    subst hdd
    unfold aireTotalsStatsF at hvs hmx hmn
    by_cases hms : (findall1 false airePatMoney t).isEmpty
    · rw [if_pos hms] at hmx
      rw [hmx] at hb1
      exact Option.noConfusion hb1
    · rw [if_neg hms] at hvs hmx hmn
      by_cases hval : (aireValoresLoopF (findall1 false airePatMoney t)).isEmpty
      · rw [if_pos hval] at hmx
        rw [hmx] at hb1
        exact Option.noConfusion hb1
      · rw [if_neg hval] at hvs hmx hmn
        have hne : aireValoresLoopF (findall1 false airePatMoney t) ≠ [] := by
          intro hfalse
          rw [hfalse] at hval
          exact hval rfl
        rw [dlookup_dinsert_ne _ _ _ _ (by decide), dlookup_dinsert_ne _ _ _ _ (by decide),
          dlookup_dinsert_ne _ _ _ _ (by decide), dlookup_dinsert_self] at hvs
        rw [dlookup_dinsert_ne _ _ _ _ (by decide), dlookup_dinsert_ne _ _ _ _ (by decide),
          dlookup_dinsert_self] at hmx
        rw [dlookup_dinsert_ne _ _ _ _ (by decide), dlookup_dinsert_self] at hmn
        have hvs2 := ValF.fs.inj (Option.some.inj hvs)
        have hmx2 := ValF.f.inj (Option.some.inj hmx)
        have hmn2 := ValF.f.inj (Option.some.inj hmn)
        subst hvs2 hmx2 hmn2
        exact ⟨pfMin_mem _ hne, pfMax_mem _ hne,
          pfMin_le_of_mem _ (aireValoresLoopF_ne_nan _) _ (pfMax_mem _ hne)⟩

/-- C10 witness: on the two-token text the ESSA double-model statistics
have the minimum and maximum as members with min ≤ max. -/
theorem totales_double_minmax_sound_witness :
    PyF.finite 1234567 ∈ [PyF.finite 1234567, PyF.finite 9999999] ∧
    PyF.finite 9999999 ∈ [PyF.finite 1234567, PyF.finite 9999999] ∧
    pfLe (.finite 1234567) (.finite 9999999) = true :=
  (totales_double_minmax_sound "1234567 9999999").1
    [("valores_encontrados", .fs [.finite 1234567, .finite 9999999]),
     ("valor_maximo", .f (.finite 9999999)), ("valor_minimo", .f (.finite 1234567)),
     ("promedio_valores", .f (.finite 5617283))]
    [.finite 1234567, .finite 9999999] (.finite 9999999) (.finite 1234567)
    (by decide) (by decide) (by decide) (by decide)

end Siocom
